import Mathlib

/-
Shallow embedding of the booking/payment core of the quanlyphongtro backend
(Express + Mongoose).  Sources:
  - Booking model (schema methods): src/backend/models/Notification.js (second document)
  - Payment model (schema methods): src/unnamed/part_001 (first document)
  - Booking routes: src/backend/routes/bookings.js
  - Payment routes (vnpay return / IPN / manual confirm): src/backend/routes/users.js (second document)
  - VNPay service: src/unnamed/part_000 (second document)
  - Access middleware: src/backend/middleware/auth.js

Modelling conventions:
  - Mongo documents become Lean structures; the persistent store is a `St`
    record of lists.  `findOne` becomes a first-match scan, `save` on an
    existing document replaces the element with the same `id`, `save` on a
    new document appends.
  - JS `Date` values used only as timestamps are `Int`; calendar dates
    (check-in/check-out, monthly due dates) are `SDate` (year, 0-based
    month, day) with JS `setMonth` normalization.
  - JS `x || d` on numbers/strings is falsy-aware (`0` and `""` fall back),
    embedded as `jsOrInt` / `jsOrStr`.
  - The HMAC-SHA512-over-canonical-querystring step of the VNPay codec is
    abstracted as an explicit function argument `hmac : Params -> String`
    applied to the parameter list with the two signature fields stripped;
    every claim treated here branches only on the boolean outcome of the
    signature comparison.
  - Emails, mongoose validation of field shapes, and the free-text content
    of descriptions/room titles are outside every claim; descriptions use a
    fixed placeholder string, notifications record recipient and type only.
-/

namespace QLPT

/-- Booking lifecycle status (bookingSchema.status enum). -/
inductive BStatus
  | pending
  | confirmed
  | depositPaid
  | active
  | completed
  | cancelled
  | expired
deriving DecidableEq, Repr

/-- Payment status (paymentSchema.status enum). -/
inductive PStatus
  | pending
  | processing
  | completed
  | failed
  | cancelled
  | refunded
deriving DecidableEq, Repr

/-- Payment type (paymentSchema.type enum). -/
inductive PType
  | deposit
  | monthlyRent
  | utilities
  | penalty
  | refund
deriving DecidableEq, Repr

/-- User role. -/
inductive Role
  | tenant
  | landlord
  | admin
deriving DecidableEq, Repr

/-- Deposit sub-status on a Booking (paymentStatus.deposit.status enum). -/
inductive DepStat
  | pending
  | paid
  | refunded
deriving DecidableEq, Repr

/-- Monthly schedule entry status (paymentStatus.monthly.status enum). -/
inductive MStatus
  | pending
  | paid
  | overdue
deriving DecidableEq, Repr

/-- Refund sub-record status (paymentSchema.refund.status enum). -/
inductive RStatus
  | pending
  | processing
  | completed
  | failed
deriving DecidableEq, Repr

/-- Who cancelled a booking (cancellation.cancelledBy enum). -/
inductive CancelActor
  | tenant
  | landlord
  | admin
deriving DecidableEq, Repr

/-- JS falsy-aware fallback on numbers: `x || d` treats 0 as absent. -/
def jsOrInt (x : Option Int) (d : Int) : Int :=
  match x with
  | some v => if v = 0 then d else v
  | none => d

/-- JS falsy-aware fallback on strings: `x || d` treats the empty string as absent. -/
def jsOrStr (x : Option String) (d : String) : String :=
  match x with
  | some v => if v = "" then d else v
  | none => d

/-- Calendar date: year, 0-based month (as JS getMonth), day of month. -/
structure SDate where
  year : Int
  month : Int
  day : Int
deriving DecidableEq, Repr

/-- Gregorian leap-year test. -/
def isLeap (y : Int) : Bool :=
  y % 4 = 0 && (y % 100 ≠ 0 || y % 400 = 0)

/-- Number of days in the given 0-based month of the given year. -/
def daysInMonth (y m : Int) : Int :=
  if m = 1 then (if isLeap y then 29 else 28)
  else if m = 3 || m = 5 || m = 8 || m = 10 then 30
  else 31

/-- JS `d.setMonth(d.getMonth() + i)` on a valid date (day 1..31): month
overflow normalizes the year, and a day past the end of the target month
rolls into the following month, exactly as JS Date normalization does. -/
def jsAddMonths (d : SDate) (i : Int) : SDate :=
  let t := d.month + i
  let y := d.year + t.fdiv 12
  let m := t.emod 12
  if d.day ≤ daysInMonth y m then ⟨y, m, d.day⟩
  else
    let d2 := d.day - daysInMonth y m
    ⟨y + (m + 1).fdiv 12, (m + 1).emod 12, d2⟩

/-- Month label `yyyy-MM` built by generateMonthlyPayments. -/
def monthLabel (d : SDate) : String :=
  toString d.year ++ "-" ++
    (if d.month + 1 < 10 then "0" ++ toString (d.month + 1) else toString (d.month + 1))

/-- Chronological order on calendar dates, as comparison of the underlying
JS Date timestamps: lexicographic on (year, month, day) for normalized dates. -/
def sdLe (a b : SDate) : Bool :=
  a.year < b.year ||
    (a.year = b.year && (a.month < b.month ||
      (a.month = b.month && a.day ≤ b.day)))

/-- Days since the civil epoch 1970-01-01 (Howard Hinnant days_from_civil),
used to embed JS Date subtraction for the computed booking duration. -/
def SDate.toDays (d : SDate) : Int :=
  let m := d.month + 1
  let y := if m ≤ 2 then d.year - 1 else d.year
  let era := y.fdiv 400
  let yoe := y - era * 400
  let mp := (m + 9).emod 12
  let doy := (153 * mp + 2).fdiv 5 + d.day - 1
  let doe := yoe * 365 + yoe.fdiv 4 - yoe.fdiv 100 + doy
  era * 146097 + doe - 719468

/-- JS `Math.ceil(x / 30)` on an integer day difference. -/
def ceilDiv30 (a : Int) : Int := -((-a).fdiv 30)

/-- Raw key-value parameters of a gateway request or a vnpay sub-document. -/
abbrev Params := List (String × String)

/-- First value stored under a key. -/
def getParam : Params → String → Option String
  | [], _ => none
  | (k, v) :: t, key => if k = key then some v else getParam t key

/-- JS object spread `{...old, ...new}` viewed as a key-value map: keys of
`new` win, remaining keys of `old` survive. -/
def mergeVnpay (old new : Params) : Params :=
  old.filter (fun kv => (getParam new kv.1).isNone) ++ new

/-- JS property assignment `obj[k] = v` viewed as a key-value map update. -/
def setParam (l : Params) (k v : String) : Params :=
  (k, v) :: l.filter (fun kv => kv.1 ≠ k)

/-- Refund sub-record of a Payment. -/
structure RefundInfo where
  amount : Option Int
  reason : Option String
  processedAt : Option Int
  refundTransactionId : Option String
  status : Option RStatus
deriving DecidableEq, Repr

/-- Refund sub-record never touched: all fields absent. -/
def noRefund : RefundInfo := ⟨none, none, none, none, none⟩

/-- Payment document (paymentSchema, src/unnamed/part_001). -/
structure Payment where
  id : Nat
  booking : Nat
  payer : Nat
  recipient : Nat
  ptype : PType
  amount : Int
  status : PStatus
  paymentMethod : String
  vnpay : Params
  transactionId : String
  externalTransactionId : Option String
  description : Option String
  initiatedAt : Option Int
  processedAt : Option Int
  completedAt : Option Int
  failedAt : Option Int
  failureReason : Option String
  refund : RefundInfo
deriving DecidableEq, Repr

/-- paymentSchema.methods.canBeRefunded, with JS operator precedence kept:
`a && !b || c` parses as `(a && !b) || c`. -/
def Payment.canBeRefunded (p : Payment) : Bool :=
  (p.status = PStatus.completed && p.refund.status = none) ||
    p.refund.status = some RStatus.pending

/-- paymentSchema.methods.processRefund: throw unless canBeRefunded, else
overwrite the refund sub-record with status processing. -/
def Payment.processRefund (p : Payment) (amount : Option Int) (reason : Option String)
    (now : Int) : Except String Payment :=
  if !p.canBeRefunded then .error "Payment cannot be refunded"
  else .ok { p with
    refund := { amount := some (jsOrInt amount p.amount), reason := reason,
                processedAt := some now, refundTransactionId := none,
                status := some RStatus.processing } }

/-- Booking paymentStatus.deposit sub-record. -/
structure DepositPS where
  dstatus : DepStat
  amount : Option Int
  paidAt : Option Int
  paymentMethod : Option String
  transactionId : Option String
deriving DecidableEq, Repr

/-- Fresh deposit sub-record (schema default status pending). -/
def depositPSDefault : DepositPS := ⟨DepStat.pending, none, none, none, none⟩

/-- One entry of Booking.paymentStatus.monthly. -/
structure MonthlyEntry where
  month : String
  amount : Int
  mstatus : MStatus
  dueDate : SDate
deriving DecidableEq, Repr

/-- Booking.cancellation sub-record. -/
structure Cancellation where
  cancelledBy : CancelActor
  cancelledAt : Int
  reason : String
deriving DecidableEq, Repr

/-- Booking.pricing sub-record. -/
structure Pricing where
  monthlyRent : Int
  deposit : Int
  utilities : Int
  totalAmount : Int
deriving DecidableEq, Repr

/-- Booking document (bookingSchema, src/backend/models/Notification.js second document). -/
structure Booking where
  id : Nat
  room : Nat
  tenant : Nat
  landlord : Nat
  checkInDate : SDate
  checkOutDate : SDate
  duration : Int
  numberOfOccupants : Int
  pricing : Pricing
  status : BStatus
  depositPS : DepositPS
  monthly : List MonthlyEntry
  cancellation : Option Cancellation
deriving DecidableEq, Repr

/-- bookingSchema.methods.calculateTotalAmount:
totalAmount := monthlyRent * duration + utilities * duration + deposit. -/
def Booking.calculateTotalAmount (b : Booking) : Booking :=
  { b with pricing := { b.pricing with
      totalAmount := b.pricing.monthlyRent * b.duration
        + b.pricing.utilities * b.duration + b.pricing.deposit } }

/-- bookingSchema.methods.canBeCancelled. -/
def Booking.canBeCancelled (b : Booking) : Bool :=
  b.status = BStatus.pending || b.status = BStatus.confirmed ||
    b.status = BStatus.depositPaid

/-- bookingSchema.methods.generateMonthlyPayments: one entry per month of
duration, due date = check-in advanced by i months, amount = rent + utilities. -/
def Booking.generateMonthlyPayments (b : Booking) : Booking :=
  { b with monthly := (List.range b.duration.toNat).map (fun (i : Nat) =>
      { month := monthLabel (jsAddMonths b.checkInDate i),
        amount := b.pricing.monthlyRent + b.pricing.utilities,
        mstatus := MStatus.pending,
        dueDate := jsAddMonths b.checkInDate i }) }

/-- Room document (the fields the booking routes read). -/
structure Room where
  id : Nat
  landlord : Nat
  rstatus : String
  isAvailable : Bool
  priceMonthly : Int
  priceDeposit : Int
  priceUtilities : Option Int
deriving DecidableEq, Repr

/-- Notification record, reduced to recipient and type. -/
structure Notif where
  recipient : Nat
  ntype : String
deriving DecidableEq, Repr

/-- The persistent store: bookings, payments, notifications, rooms. -/
structure St where
  bookings : List Booking
  payments : List Payment
  notifs : List Notif
  rooms : List Room
deriving DecidableEq, Repr

/-- First element satisfying a predicate (Mongo findOne over a scan order). -/
def firstSuch (p : α → Bool) : List α → Option α
  | [] => none
  | x :: t => if p x then some x else firstSuch p t

/-- Booking.findById. -/
def findBooking (l : List Booking) (bid : Nat) : Option Booking :=
  firstSuch (fun b => b.id = bid) l

/-- Room.findById. -/
def findRoom (l : List Room) (rid : Nat) : Option Room :=
  firstSuch (fun r => r.id = rid) l

/-- Payment.findOne({booking: bid}). -/
def findPaymentByBooking (l : List Payment) (bid : Nat) : Option Payment :=
  firstSuch (fun p => p.booking = bid) l

/-- Payment.findOne({booking: bid, type: deposit}). -/
def findDepositPayment (l : List Payment) (bid : Nat) : Option Payment :=
  firstSuch (fun p => p.booking = bid && p.ptype = PType.deposit) l

/-- Payment.findOne({vnpay.txnRef: ref}); an absent ref matches payments
whose vnpay sub-document carries no txnRef. -/
def findPaymentByTxnRef (l : List Payment) (ref : Option String) : Option Payment :=
  firstSuch (fun p => getParam p.vnpay "txnRef" = ref) l

/-- Saving an existing booking: replace the document with the same id. -/
def saveBooking (st : St) (b : Booking) : St :=
  { st with bookings := st.bookings.map (fun x => if x.id = b.id then b else x) }

/-- Saving an existing payment: replace the document with the same id. -/
def savePayment (st : St) (p : Payment) : St :=
  { st with payments := st.payments.map (fun x => if x.id = p.id then p else x) }

/-- Saving a new booking: insert. -/
def insertBooking (st : St) (b : Booking) : St :=
  { st with bookings := st.bookings ++ [b] }

/-- Saving a new payment: insert. -/
def insertPayment (st : St) (p : Payment) : St :=
  { st with payments := st.payments ++ [p] }

/-- Saving one notification. -/
def pushNotif (st : St) (n : Notif) : St :=
  { st with notifs := st.notifs ++ [n] }

/-- Saving several notifications. -/
def pushNotifs (st : St) (ns : List Notif) : St :=
  { st with notifs := st.notifs ++ ns }

/-- Result of vnpayService.parsePaymentResult: the fields the two callback
handlers read. -/
structure ParseResult where
  isValid : Bool
  txnRef : Option String
  responseCode : Option String
  transactionNo : Option String
  message : String
deriving DecidableEq, Repr

/-- vnpayService.verifyPaymentResult: strip vnp_SecureHash and
vnp_SecureHashType, recompute the signature over the remainder, compare
byte-for-byte with the supplied hash; a missing hash never verifies. -/
def verifyPaymentResult (hmac : Params → String) (params : Params) : Bool :=
  match getParam params "vnp_SecureHash" with
  | none => false
  | some h =>
      h = hmac (params.filter (fun kv =>
        kv.1 ≠ "vnp_SecureHash" && kv.1 ≠ "vnp_SecureHashType"))

/-- vnpayService.getResponseMessage: static response-code lookup table,
unknown code mapped to the generic message. -/
def getResponseMessage (c : Option String) : String :=
  match c with
  | some "00" => "Giao dịch thành công"
  | some "07" => "Trừ tiền thành công. Giao dịch bị nghi ngờ (liên quan tới lừa đảo, giao dịch bất thường)."
  | some "09" => "Giao dịch không thành công do: Thẻ/Tài khoản của khách hàng chưa đăng ký dịch vụ InternetBanking của ngân hàng."
  | some "10" => "Xác thực thông tin thẻ/tài khoản không đúng quá 3 lần"
  | some "11" => "Đã hết hạn chờ thanh toán. Xin vui lòng thực hiện lại giao dịch."
  | some "12" => "Giao dịch bị hủy."
  | some "24" => "Giao dịch không thành công do: Khách hàng hủy giao dịch"
  | some "51" => "Giao dịch không thành công do: Tài khoản của quý khách không đủ số dư để thực hiện giao dịch."
  | some "65" => "Giao dịch không thành công do: Tài khoản của Quý khách đã vượt quá hạn mức giao dịch trong ngày."
  | some "75" => "Ngân hàng thanh toán đang bảo trì."
  | some "79" => "Nhập sai mật khẩu thanh toán quá số lần quy định. Xin vui lòng thực hiện lại giao dịch."
  | some "99" => "Các lỗi khác (lỗi còn lại, không có trong danh sách mã lỗi đã liệt kê)"
  | _ => "Lỗi không xác định"

/-- vnpayService.parsePaymentResult. -/
def parsePaymentResult (hmac : Params → String) (params : Params) : ParseResult :=
  { isValid := verifyPaymentResult hmac params,
    txnRef := getParam params "vnp_TxnRef",
    responseCode := getParam params "vnp_ResponseCode",
    transactionNo := getParam params "vnp_TransactionNo",
    message := getResponseMessage (getParam params "vnp_ResponseCode") }

/-- Authenticated actor supplied by the auth middleware. -/
structure Actor where
  id : Nat
  role : Role
deriving DecidableEq, Repr

/-- Placeholder for description strings built from room titles (free text,
outside every claim). -/
def defaultDesc : String := "Dat coc phong"

/-- Deterministic stand-in for the pre-save transactionId generator hook
(TXN + timestamp slice + random suffix in the source). -/
def genTxnId (n : Nat) : String := "TXN" ++ toString n

/-- Outcome of the vnpay return handler: the redirect issued. -/
inductive RetRes
  | failedRedirect (msg : String)
  | successRedirect (txnRef : Option String)
deriving DecidableEq, Repr

/-- The deposit-booking advance of the return handler: unconditionally set
the owning Booking to deposit_paid and mirror the payment on
paymentStatus.deposit. -/
def advanceDepositReturn (st : St) (payment : Payment) (now : Int) : St :=
  match findBooking st.bookings payment.booking with
  | some b =>
      saveBooking st { b with
        status := BStatus.depositPaid,
        depositPS := ⟨DepStat.paid, some payment.amount, some now,
          some "vnpay", some payment.transactionId⟩ }
  | none => st

/-- The deposit-booking advance of the IPN handler: same mirror, but only
from status confirmed. -/
def advanceDepositIpn (st : St) (payment : Payment) (now : Int) : St :=
  match findBooking st.bookings payment.booking with
  | some b =>
      if b.status = BStatus.confirmed then
        saveBooking st { b with
          status := BStatus.depositPaid,
          depositPS := ⟨DepStat.paid, some payment.amount, some now,
            some "vnpay", some payment.transactionId⟩ }
      else st
  | none => st

/-- GET /vnpay-return (src/backend/routes/users.js): verify, look up the
Payment by vnpay.txnRef; on response code 00 mark it completed (no guard on
the current status), merge the raw gateway fields into vnpay, advance a
deposit Booking to deposit_paid, fire payer and recipient notifications;
otherwise mark the Payment failed with the mapped message. -/
def vnpayReturn (hmac : Params → String) (now : Int) (params : Params) (st : St) :
    RetRes × St :=
  let r := parsePaymentResult hmac params
  if !r.isValid then (.failedRedirect "Invalid signature", st)
  else
    match findPaymentByTxnRef st.payments r.txnRef with
    | none => (.failedRedirect "Payment not found", st)
    | some payment =>
      if r.responseCode = some "00" then
        let p1 : Payment := { payment with
          status := PStatus.completed,
          processedAt := some now,
          completedAt := some now,
          externalTransactionId := r.transactionNo,
          vnpay := mergeVnpay payment.vnpay params }
        let st1 :=
          if payment.ptype = PType.deposit then advanceDepositReturn st payment now
          else st
        let st2 := pushNotifs st1
          [⟨payment.payer, "payment_received"⟩, ⟨payment.recipient, "payment_received"⟩]
        (.successRedirect r.txnRef, savePayment st2 p1)
      else
        let p1 : Payment := { payment with
          status := PStatus.failed,
          failedAt := some now,
          failureReason := some r.message }
        (.failedRedirect r.message, savePayment st p1)

/-- POST /vnpay/ipn (src/backend/routes/users.js): verify, look up by
vnpay.txnRef, always merge the raw fields into vnpay; on code 00 mutate only
if the Payment is not already completed, advancing a deposit Booking only
from status confirmed; on any other code mark the Payment failed
unconditionally; ack RspCode 00 in every one of those cases. -/
def vnpayIpn (hmac : Params → String) (now : Int) (params : Params) (st : St) :
    (String × String) × St :=
  let r := parsePaymentResult hmac params
  if !r.isValid then (("97", "Invalid signature"), st)
  else
    match findPaymentByTxnRef st.payments r.txnRef with
    | none => (("01", "Payment not found"), st)
    | some payment =>
      let p0 : Payment := { payment with vnpay := mergeVnpay payment.vnpay params }
      if r.responseCode = some "00" then
        if p0.status ≠ PStatus.completed then
          let p1 : Payment := { p0 with
            status := PStatus.completed,
            processedAt := some now,
            completedAt := some now,
            externalTransactionId := r.transactionNo }
          let st1 :=
            if p1.ptype = PType.deposit then advanceDepositIpn st p1 now
            else st
          (("00", "Success"), savePayment st1 p1)
        else (("00", "Success"), savePayment st p0)
      else
        let p1 : Payment := { p0 with
          status := PStatus.failed,
          failedAt := some now,
          failureReason := some r.message }
        (("00", "Success"), savePayment st p1)

/-- Outcome of PUT /bookings/:id/confirm. -/
inductive ConfRes
  | ok
  | forbidden
  | notFound
  | badState
deriving DecidableEq, Repr

/-- The payment side effect of landlord confirmation: the first Payment of
the Booking, if pending, becomes completed with method bank_transfer. -/
def completePendingPayment (st : St) (bid : Nat) (now : Int) : St :=
  match findPaymentByBooking st.payments bid with
  | some p =>
      if p.status = PStatus.pending then
        savePayment st { p with
          status := PStatus.completed,
          completedAt := some now,
          paymentMethod := "bank_transfer" }
      else st
  | none => st

/-- PUT /bookings/:id/confirm (src/backend/routes/bookings.js): landlord
confirmation; requires role landlord, ownership, and status pending; sets
the Booking to confirmed, then marks the first Payment of the Booking
completed with method bank_transfer if it is pending, then notifies the
tenant. -/
def confirmBooking (actor : Actor) (bid : Nat) (now : Int) (st : St) : ConfRes × St :=
  if actor.role ≠ Role.landlord then (.forbidden, st)
  else
    match findBooking st.bookings bid with
    | none => (.notFound, st)
    | some b =>
      if b.landlord ≠ actor.id then (.forbidden, st)
      else if b.status ≠ BStatus.pending then (.badState, st)
      else
        let st1 := saveBooking st { b with status := BStatus.confirmed }
        let st2 := completePendingPayment st1 bid now
        (.ok, pushNotif st2 ⟨b.tenant, "booking_confirmed"⟩)

/-- Outcome of PUT /bookings/:id/status. -/
inductive UpdRes
  | ok
  | invalidStatus
  | notFound
  | forbidden
  | confirmNeedsPending
  | cannotCancel
deriving DecidableEq, Repr

/-- Who-cancelled resolution order of the status route: admin, then tenant,
then landlord. -/
def roleOfCancel (isAdmin isTenant : Bool) : CancelActor :=
  if isAdmin then CancelActor.admin
  else if isTenant then CancelActor.tenant
  else CancelActor.landlord

/-- The vnpay txnRef patch of the status route: if a txnRef was supplied,
store it in the vnpay sub-document and default orderInfo when absent. -/
def applyTxnRef (v : Params) (txnRef : Option String) (desc : String) : Params :=
  match txnRef with
  | none => v
  | some t =>
    let v1 := setParam v "txnRef" t
    if jsOrStr (getParam v1 "orderInfo") "" = "" then setParam v1 "orderInfo" desc
    else v1

/-- The deposit_paid block of the status route: find-or-create the deposit
Payment, mark it completed with the effective method and optional external
txnRef, and mirror it on the Booking's paymentStatus.deposit. -/
def depositPaidStep (st : St) (bid : Nat) (b b2 : Booking) (method : String)
    (reqTxnRef : Option String) (now : Int) (npid : Nat) : St × Booking :=
  match findDepositPayment st.payments bid with
  | none =>
    let np : Payment :=
      { id := npid, booking := bid, payer := b.tenant,
        recipient := b.landlord, ptype := PType.deposit,
        amount := b.pricing.deposit, status := PStatus.completed,
        paymentMethod := method, vnpay := applyTxnRef [] reqTxnRef defaultDesc,
        transactionId := genTxnId npid, externalTransactionId := none,
        description := some defaultDesc, initiatedAt := some now,
        processedAt := some now, completedAt := some now, failedAt := none,
        failureReason := none, refund := noRefund }
    (insertPayment st np,
     { b2 with depositPS := ⟨DepStat.paid, some np.amount, some now,
         some method,
         some (jsOrStr reqTxnRef (jsOrStr (some np.transactionId)
           (toString np.id)))⟩ })
  | some pay =>
    let pay1 : Payment := { pay with
      status := PStatus.completed, paymentMethod := method,
      processedAt := some now, completedAt := some now,
      description := some (jsOrStr pay.description defaultDesc),
      vnpay := applyTxnRef pay.vnpay reqTxnRef defaultDesc }
    (savePayment st pay1,
     { b2 with depositPS := ⟨DepStat.paid, some pay1.amount, some now,
         some method,
         some (jsOrStr reqTxnRef (jsOrStr (some pay1.transactionId)
           (toString pay1.id)))⟩ })

/-- PUT /bookings/:id/status (src/backend/routes/bookings.js): generalized
transition.  Validates the target against the six allowed statuses (expired
is not settable), authorization (admin any, landlord or tenant only their
own), confirmed only from pending, cancelled only from a cancellable state.
Records cancellation when cancelling; when moving to deposit_paid from
another status finds-or-creates the deposit Payment, marks it completed and
mirrors it on paymentStatus.deposit.  No Payment is failed when cancelling
through this route. -/
def statusUpdate (actor : Actor) (bid : Nat) (target : BStatus) (reason : Option String)
    (reqMethod : Option String) (reqTxnRef : Option String) (now : Int) (npid : Nat)
    (st : St) : UpdRes × St :=
  if target = BStatus.expired then (.invalidStatus, st)
  else
    match findBooking st.bookings bid with
    | none => (.notFound, st)
    | some b =>
      let isAdmin := actor.role = Role.admin
      let isLandlord := actor.role = Role.landlord && b.landlord = actor.id
      let isTenant := actor.role = Role.tenant && b.tenant = actor.id
      if !isAdmin && !isLandlord && !isTenant then (.forbidden, st)
      else if target = BStatus.confirmed && b.status ≠ BStatus.pending then
        (.confirmNeedsPending, st)
      else if target = BStatus.cancelled && !b.canBeCancelled then (.cannotCancel, st)
      else
        let oldStatus := b.status
        let b1 : Booking := { b with status := target }
        let b2 : Booking :=
          if target = BStatus.cancelled then
            { b1 with cancellation := some ⟨roleOfCancel isAdmin isTenant, now,
                jsOrStr reason "Không có lý do"⟩ }
          else b1
        let method := jsOrStr reqMethod "bank_transfer"
        let stb : St × Booking :=
          if target = BStatus.depositPaid && oldStatus ≠ BStatus.depositPaid then
            depositPaidStep st bid b b2 method reqTxnRef now npid
          else (st, b2)
        let st2 := saveBooking stb.1 stb.2
        let st3 :=
          if oldStatus = BStatus.pending && target = BStatus.confirmed then
            pushNotif st2 ⟨b.tenant, "booking_confirmed"⟩
          else if target = BStatus.depositPaid && oldStatus ≠ BStatus.depositPaid then
            pushNotif st2 ⟨b.tenant, "payment_received"⟩
          else if target = BStatus.cancelled then
            match roleOfCancel isAdmin isTenant with
            | CancelActor.landlord => pushNotif st2 ⟨b.tenant, "booking_cancelled"⟩
            | CancelActor.admin => pushNotif st2 ⟨b.tenant, "booking_cancelled"⟩
            | CancelActor.tenant => pushNotif st2 ⟨b.landlord, "booking_cancelled"⟩
          else st2
        (.ok, st3)

/-- Outcome of PUT /bookings/:id/cancel. -/
inductive CanRes
  | ok
  | notFound
  | forbidden
  | cannotCancel
deriving DecidableEq, Repr

/-- The payment side effect of the cancel endpoint: the first Payment of
the Booking, if pending, becomes failed with the booking-cancelled reason. -/
def failPendingPayment (st : St) (bid : Nat) (now : Int) : St :=
  match findPaymentByBooking st.payments bid with
  | some p =>
      if p.status = PStatus.pending then
        savePayment st { p with
          status := PStatus.failed,
          failedAt := some now,
          failureReason := some "Đặt phòng bị hủy" }
      else st
  | none => st

/-- PUT /bookings/:id/cancel (src/backend/routes/bookings.js, behind
checkBookingAccess): requires canBeCancelled; resolves cancelledBy as admin
by role, else tenant or landlord by ownership; records the cancellation,
marks the first Payment of the Booking failed with the booking-cancelled
reason if it is pending, and notifies the other party. -/
def cancelBooking (actor : Actor) (bid : Nat) (reason : Option String) (now : Int)
    (st : St) : CanRes × St :=
  let access : Option CanRes :=
    if actor.role = Role.admin then none
    else
      match findBooking st.bookings bid with
      | none => some .notFound
      | some b =>
          if b.tenant ≠ actor.id && b.landlord ≠ actor.id then some .forbidden
          else none
  match access with
  | some r => (r, st)
  | none =>
    match findBooking st.bookings bid with
    | none => (.notFound, st)
    | some b =>
      if !b.canBeCancelled then (.cannotCancel, st)
      else
        let cbOpt : Option CancelActor :=
          if actor.role = Role.admin then some CancelActor.admin
          else if b.tenant = actor.id then some CancelActor.tenant
          else if b.landlord = actor.id then some CancelActor.landlord
          else none
        match cbOpt with
        | none => (.forbidden, st)
        | some cb =>
          let b1 : Booking := { b with
            status := BStatus.cancelled,
            cancellation := some ⟨cb, now, jsOrStr reason "Không có lý do"⟩ }
          let st1 := saveBooking st b1
          let st2 := failPendingPayment st1 bid now
          let st3 :=
            match cb with
            | CancelActor.tenant => pushNotif st2 ⟨b.landlord, "booking_cancelled"⟩
            | CancelActor.landlord => pushNotif st2 ⟨b.tenant, "booking_cancelled"⟩
            | CancelActor.admin => st2
          (.ok, st3)

/-- Utilities field of the creation request body: a plain number or the
electricity/water/internet/other breakdown summed by the route. -/
inductive UtilSpec
  | num (n : Int)
  | breakdown (e w i o : Int)
deriving DecidableEq, Repr

/-- Request body of POST /bookings (after validation middleware). -/
structure CreateBody where
  roomId : Nat
  checkInDate : SDate
  checkOutDate : SDate
  duration : Option Int
  numberOfOccupants : Int
  monthlyRent : Option Int
  deposit : Option Int
  utilities : Option UtilSpec
  totalAmount : Option Int
deriving DecidableEq, Repr

/-- Outcome of POST /bookings. -/
inductive CrRes
  | created
  | forbidden
  | roomNotFound
  | roomUnavailable
  | selfBooking
  | conflict
deriving DecidableEq, Repr

/-- The overlap-conflict query of POST /bookings: same room, status among
pending, confirmed, deposit_paid, active, existing.checkIn ≤ new.checkOut
and existing.checkOut ≥ new.checkIn. -/
def overlapConflict (rid : Nat) (cin cout : SDate) (b : Booking) : Bool :=
  b.room = rid &&
    (b.status = BStatus.pending || b.status = BStatus.confirmed ||
      b.status = BStatus.depositPaid || b.status = BStatus.active) &&
    sdLe b.checkInDate cout && sdLe cin b.checkOutDate

/-- The Booking document POST /bookings builds and saves: pricing with
falsy-aware fallbacks to the room price, the computed total, the generated
monthly schedule. -/
def builtBooking (actor : Actor) (body : CreateBody) (room : Room) (nbid : Nat) :
    Booking :=
  let calculatedDuration :=
    ceilDiv30 (body.checkOutDate.toDays - body.checkInDate.toDays)
  let utilitiesVal : Int :=
    match body.utilities with
    | some (.breakdown e w i o) => e + w + i + o
    | some (.num n) => jsOrInt (some n) (jsOrInt room.priceUtilities 0)
    | none => jsOrInt room.priceUtilities 0
  let b0 : Booking := {
    id := nbid, room := body.roomId, tenant := actor.id,
    landlord := room.landlord,
    checkInDate := body.checkInDate, checkOutDate := body.checkOutDate,
    duration := jsOrInt body.duration calculatedDuration,
    numberOfOccupants := body.numberOfOccupants,
    pricing := { monthlyRent := jsOrInt body.monthlyRent room.priceMonthly,
                 deposit := jsOrInt body.deposit room.priceDeposit,
                 utilities := utilitiesVal,
                 totalAmount := jsOrInt body.totalAmount 0 },
    status := BStatus.pending, depositPS := depositPSDefault,
    monthly := [], cancellation := none }
  b0.calculateTotalAmount.generateMonthlyPayments

/-- POST /bookings (src/backend/routes/bookings.js): tenant creates a
booking.  Checks room existence, room active and available, not the
tenant's own room, then the overlap query; on success inserts the built
Booking, a pending placeholder deposit Payment, and two notifications. -/
def createBooking (actor : Actor) (body : CreateBody) (now : Int)
    (nbid npid : Nat) (st : St) : CrRes × St :=
  if actor.role ≠ Role.tenant then (.forbidden, st)
  else
    match findRoom st.rooms body.roomId with
    | none => (.roomNotFound, st)
    | some room =>
      if room.rstatus ≠ "active" || !room.isAvailable then (.roomUnavailable, st)
      else if room.landlord = actor.id then (.selfBooking, st)
      else if (firstSuch (overlapConflict body.roomId body.checkInDate body.checkOutDate)
          st.bookings).isSome then (.conflict, st)
      else
        let b1 := builtBooking actor body room nbid
        let st1 := insertBooking st b1
        let st2 := pushNotifs st1
          [⟨actor.id, "booking_request"⟩, ⟨room.landlord, "booking_request"⟩]
        let st3 := insertPayment st2
          { id := npid, booking := nbid, payer := actor.id,
            recipient := room.landlord, ptype := PType.deposit,
            amount := b1.pricing.deposit, status := PStatus.pending,
            paymentMethod := "pending", vnpay := [], transactionId := genTxnId npid,
            externalTransactionId := none, description := some defaultDesc,
            initiatedAt := some now, processedAt := none, completedAt := none,
            failedAt := none, failureReason := none, refund := noRefund }
        (.created, st3)

/-! Store and parameter-map lemmas shared by the claim proofs. -/

@[simp]
theorem savePayment_bookings (st : St) (p : Payment) :
    (savePayment st p).bookings = st.bookings := rfl

@[simp]
theorem savePayment_notifs (st : St) (p : Payment) :
    (savePayment st p).notifs = st.notifs := rfl

@[simp]
theorem saveBooking_payments (st : St) (b : Booking) :
    (saveBooking st b).payments = st.payments := rfl

@[simp]
theorem insertBooking_payments (st : St) (b : Booking) :
    (insertBooking st b).payments = st.payments := rfl

@[simp]
theorem insertPayment_bookings (st : St) (p : Payment) :
    (insertPayment st p).bookings = st.bookings := rfl

@[simp]
theorem pushNotif_payments (st : St) (n : Notif) :
    (pushNotif st n).payments = st.payments := rfl

@[simp]
theorem pushNotif_bookings (st : St) (n : Notif) :
    (pushNotif st n).bookings = st.bookings := rfl

@[simp]
theorem pushNotifs_payments (st : St) (ns : List Notif) :
    (pushNotifs st ns).payments = st.payments := rfl

@[simp]
theorem pushNotifs_bookings (st : St) (ns : List Notif) :
    (pushNotifs st ns).bookings = st.bookings := rfl

@[simp]
theorem savePayment_rooms (st : St) (p : Payment) :
    (savePayment st p).rooms = st.rooms := rfl

@[simp]
theorem saveBooking_notifs (st : St) (b : Booking) :
    (saveBooking st b).notifs = st.notifs := rfl

@[simp]
theorem saveBooking_rooms (st : St) (b : Booking) :
    (saveBooking st b).rooms = st.rooms := rfl

@[simp]
theorem advanceDepositReturn_payments (st : St) (p : Payment) (now : Int) :
    (advanceDepositReturn st p now).payments = st.payments := by
  unfold advanceDepositReturn
  cases findBooking st.bookings p.booking <;> simp

@[simp]
theorem advanceDepositIpn_payments (st : St) (p : Payment) (now : Int) :
    (advanceDepositIpn st p now).payments = st.payments := by
  unfold advanceDepositIpn
  cases findBooking st.bookings p.booking with
  | none => rfl
  | some b => by_cases hb : b.status = BStatus.confirmed <;> simp [hb]

@[simp]
theorem advanceDepositIpn_notifs (st : St) (p : Payment) (now : Int) :
    (advanceDepositIpn st p now).notifs = st.notifs := by
  unfold advanceDepositIpn
  cases findBooking st.bookings p.booking with
  | none => rfl
  | some b => by_cases hb : b.status = BStatus.confirmed <;> simp [hb]

@[simp]
theorem advanceDepositIpn_rooms (st : St) (p : Payment) (now : Int) :
    (advanceDepositIpn st p now).rooms = st.rooms := by
  unfold advanceDepositIpn
  cases findBooking st.bookings p.booking with
  | none => rfl
  | some b => by_cases hb : b.status = BStatus.confirmed <;> simp [hb]

@[simp]
theorem completePendingPayment_bookings (st : St) (bid : Nat) (now : Int) :
    (completePendingPayment st bid now).bookings = st.bookings := by
  unfold completePendingPayment
  cases findPaymentByBooking st.payments bid with
  | none => rfl
  | some p => by_cases hp : p.status = PStatus.pending <;> simp [hp]

@[simp]
theorem failPendingPayment_bookings (st : St) (bid : Nat) (now : Int) :
    (failPendingPayment st bid now).bookings = st.bookings := by
  unfold failPendingPayment
  cases findPaymentByBooking st.payments bid with
  | none => rfl
  | some p => by_cases hp : p.status = PStatus.pending <;> simp [hp]

@[simp]
theorem depositPaidStep_fst_bookings (st : St) (bid : Nat) (b b2 : Booking)
    (method : String) (reqTxnRef : Option String) (now : Int) (npid : Nat) :
    (depositPaidStep st bid b b2 method reqTxnRef now npid).1.bookings =
      st.bookings := by
  unfold depositPaidStep
  cases findDepositPayment st.payments bid <;> simp [insertPayment]

theorem firstSuch_eq_some {α : Type} {p : α → Bool} {l : List α} {a : α}
    (h : firstSuch p l = some a) : p a = true := by
  induction l with
  | nil => simp [firstSuch] at h
  | cons x t ih =>
    by_cases hx : p x
    · simp only [firstSuch, hx, if_true, Option.some.injEq] at h
      exact h ▸ hx
    · simp only [firstSuch, hx, if_false] at h
      exact ih h

theorem firstSuch_isSome_iff {α : Type} {p : α → Bool} {l : List α} :
    (firstSuch p l).isSome ↔ ∃ x ∈ l, p x = true := by
  induction l with
  | nil => simp [firstSuch]
  | cons x t ih =>
    by_cases hx : p x
    · simp [firstSuch, hx]
    · simp [firstSuch, hx, ih]

theorem firstSuch_eq_none_iff {α : Type} {p : α → Bool} {l : List α} :
    firstSuch p l = none ↔ ∀ x ∈ l, p x = false := by
  induction l with
  | nil => simp [firstSuch]
  | cons x t ih =>
    by_cases hx : p x
    · simp [firstSuch, hx]
    · simp [firstSuch, hx, ih]

theorem firstSuch_append {α : Type} {p : α → Bool} {l m : List α}
    (h : firstSuch p l = none) : firstSuch p (l ++ m) = firstSuch p m := by
  induction l with
  | nil => rfl
  | cons x t ih =>
    by_cases hx : p x
    · simp [firstSuch, hx] at h
    · simp only [firstSuch, hx, if_false] at h
      simpa [firstSuch, hx] using ih h

/-- Finding after an in-place replace: if a scan with predicate pr1 stopped
at p, and the document q that replaces everything with key p has pr2, and
pr2 can only hold past pr1 at key p, then a pr2-scan of the updated list
stops at q. -/
theorem firstSuch_replace {α : Type} (key : α → Nat) {pr1 pr2 : α → Bool}
    {l : List α} {p q : α}
    (h : firstSuch pr1 l = some p) (hq : pr2 q = true) (hkey : key q = key p)
    (hmono : ∀ x, pr1 x = false → key x ≠ key p → pr2 x = false) :
    firstSuch pr2 (l.map (fun x => if key x = key q then q else x)) = some q := by
  induction l with
  | nil => simp [firstSuch] at h
  | cons x t ih =>
    by_cases hx : pr1 x
    · simp only [firstSuch, hx, if_true, Option.some.injEq] at h
      subst h
      simp [firstSuch, hkey, hq]
    · simp only [firstSuch, hx, if_false] at h
      by_cases hk : key x = key q
      · simp [firstSuch, hk, hq]
      · have hx2 : pr2 x = false := hmono x (by simpa using hx) (by rw [← hkey]; exact hk)
        simp only [List.map_cons, firstSuch, hk, if_false, hx2]
        exact ih h

theorem map_replace_idem {α : Type} (key : α → Nat) (q : α) (l : List α) :
    ((l.map (fun x => if key x = key q then q else x)).map
        (fun x => if key x = key q then q else x))
      = l.map (fun x => if key x = key q then q else x) := by
  induction l with
  | nil => rfl
  | cons x t ih =>
    by_cases hk : key x = key q
    · simpa [hk] using ih
    · simpa [hk] using ih

/-- firstSuch_replace specialized to savePayment. -/
theorem firstSuch_savePayment {pr1 pr2 : Payment → Bool} {st : St} {p q : Payment}
    (h : firstSuch pr1 st.payments = some p) (hq : pr2 q = true) (hkey : q.id = p.id)
    (hmono : ∀ x, pr1 x = false → x.id ≠ p.id → pr2 x = false) :
    firstSuch pr2 (savePayment st q).payments = some q :=
  firstSuch_replace Payment.id h hq hkey hmono

/-- firstSuch_replace specialized to saveBooking. -/
theorem firstSuch_saveBooking {pr1 pr2 : Booking → Bool} {st : St} {b b' : Booking}
    (h : firstSuch pr1 st.bookings = some b) (hb : pr2 b' = true) (hkey : b'.id = b.id)
    (hmono : ∀ x, pr1 x = false → x.id ≠ b.id → pr2 x = false) :
    firstSuch pr2 (saveBooking st b').bookings = some b' :=
  firstSuch_replace Booking.id h hb hkey hmono

/-- Inserting a fresh payment when no document matched: the scan now finds
the inserted one. -/
theorem firstSuch_insertPayment {pr : Payment → Bool} {st : St} {q : Payment}
    (h : firstSuch pr st.payments = none) (hq : pr q = true) :
    firstSuch pr (insertPayment st q).payments = some q := by
  show firstSuch pr (st.payments ++ [q]) = some q
  rw [firstSuch_append h]
  simp [firstSuch, hq]

theorem getParam_isSome_of_mem {l : Params} {kv : String × String} (h : kv ∈ l) :
    (getParam l kv.1).isSome := by
  induction l with
  | nil => simp at h
  | cons a t ih =>
    rcases List.mem_cons.mp h with h1 | h2
    · subst h1; simp [getParam]
    · by_cases hk : a.1 = kv.1
      · simp [getParam, hk]
      · simpa [getParam, hk] using ih h2

theorem filter_self_params_nil (m : Params) :
    m.filter (fun kv => (getParam m kv.1).isNone) = [] := by
  have aux : ∀ l : Params, (∀ kv ∈ l, (getParam m kv.1).isSome) →
      l.filter (fun kv => (getParam m kv.1).isNone) = [] := by
    intro l hl
    induction l with
    | nil => rfl
    | cons a t ih =>
      have ha := hl a (List.mem_cons_self a t)
      have : (getParam m a.1).isNone = false := by
        cases hg : getParam m a.1 with
        | none => rw [hg] at ha; simp at ha
        | some v => simp
      simp only [List.filter_cons, this]
      exact ih (fun kv hkv => hl kv (List.mem_cons_of_mem a hkv))
  exact aux m (fun kv hkv => getParam_isSome_of_mem hkv)

theorem getParam_mergeVnpay_none {m : Params} {k : String}
    (h : getParam m k = none) (l : Params) :
    getParam (mergeVnpay l m) k = getParam l k := by
  induction l with
  | nil => simpa [mergeVnpay, getParam] using h
  | cons a t ih =>
    by_cases hk : a.1 = k
    · have : (getParam m a.1).isNone = true := by rw [hk, h]; rfl
      simp [mergeVnpay, List.filter_cons, this, getParam, hk, h]
    · by_cases hkeep : (getParam m a.1).isNone
      · simpa [mergeVnpay, List.filter_cons, hkeep, getParam, hk] using ih
      · simpa [mergeVnpay, List.filter_cons, hkeep, getParam, hk] using ih

theorem mergeVnpay_idem (l m : Params) :
    mergeVnpay (mergeVnpay l m) m = mergeVnpay l m := by
  unfold mergeVnpay
  rw [List.filter_append, filter_self_params_nil, List.append_nil, List.filter_filter]
  congr 1
  apply List.filter_congr
  intro kv _
  cases getParam m kv.1 <;> simp

/-! Concrete scenarios used by counterexamples and witnesses. -/

/-- A gateway signer that the test parameter sets below satisfy. -/
def hmacSig : Params → String := fun _ => "SIG"

/-- A booking used for the worked pricing example of the spec. -/
def exampleBooking : Booking :=
  { id := 1, room := 1, tenant := 2, landlord := 3,
    checkInDate := ⟨2025, 9, 1⟩, checkOutDate := ⟨2026, 0, 1⟩,
    duration := 3, numberOfOccupants := 2,
    pricing := { monthlyRent := 3000000, deposit := 3000000, utilities := 200000,
                 totalAmount := 0 },
    status := BStatus.pending, depositPS := depositPSDefault,
    monthly := [], cancellation := none }

/-- Claims C2: calculateTotalAmount and generateMonthlyPayments compute the
advertised total and the advertised per-month schedule; on the worked
example (rent 3,000,000, utilities 200,000, deposit 3,000,000, duration 3)
the total is 12,600,000 and the three entries carry 3,200,000 each. -/
theorem claim_C2 :
    (∀ b : Booking,
      (b.calculateTotalAmount.generateMonthlyPayments).pricing.totalAmount =
          b.pricing.monthlyRent * b.duration + b.pricing.utilities * b.duration +
            b.pricing.deposit ∧
      (b.calculateTotalAmount.generateMonthlyPayments).monthly.length = b.duration.toNat ∧
      ∀ i : Nat, ∀ h : i < (b.calculateTotalAmount.generateMonthlyPayments).monthly.length,
        ((b.calculateTotalAmount.generateMonthlyPayments).monthly.get ⟨i, h⟩).amount =
            b.pricing.monthlyRent + b.pricing.utilities ∧
        ((b.calculateTotalAmount.generateMonthlyPayments).monthly.get ⟨i, h⟩).mstatus =
            MStatus.pending ∧
        ((b.calculateTotalAmount.generateMonthlyPayments).monthly.get ⟨i, h⟩).dueDate =
            jsAddMonths b.checkInDate i) ∧
    ((exampleBooking.calculateTotalAmount.generateMonthlyPayments).pricing.totalAmount =
        12600000 ∧
      (exampleBooking.calculateTotalAmount.generateMonthlyPayments).monthly.length = 3 ∧
      ∀ e ∈ (exampleBooking.calculateTotalAmount.generateMonthlyPayments).monthly,
        e.amount = 3200000) := by
  constructor
  · intro b
    refine ⟨rfl, ?_, ?_⟩
    · simp only [Booking.calculateTotalAmount, Booking.generateMonthlyPayments]
      rw [List.length_map, List.length_range]
    · intro i h
      simp only [Booking.calculateTotalAmount, Booking.generateMonthlyPayments,
        List.get_eq_getElem, List.getElem_map, List.getElem_range]
      exact ⟨trivial, trivial, trivial⟩
  · exact ⟨by decide, by decide, by decide⟩

/-- Claim C2 witness: the general clauses instantiated on the worked
example at index 0. -/
theorem claim_C2_witness :
    (exampleBooking.calculateTotalAmount.generateMonthlyPayments).pricing.totalAmount =
        exampleBooking.pricing.monthlyRent * exampleBooking.duration +
          exampleBooking.pricing.utilities * exampleBooking.duration +
          exampleBooking.pricing.deposit ∧
    (exampleBooking.calculateTotalAmount.generateMonthlyPayments).monthly.length =
        exampleBooking.duration.toNat ∧
    ∀ h : 0 < (exampleBooking.calculateTotalAmount.generateMonthlyPayments).monthly.length,
      ((exampleBooking.calculateTotalAmount.generateMonthlyPayments).monthly.get
          ⟨0, h⟩).amount =
        exampleBooking.pricing.monthlyRent + exampleBooking.pricing.utilities ∧
      ((exampleBooking.calculateTotalAmount.generateMonthlyPayments).monthly.get
          ⟨0, h⟩).mstatus = MStatus.pending ∧
      ((exampleBooking.calculateTotalAmount.generateMonthlyPayments).monthly.get
          ⟨0, h⟩).dueDate = jsAddMonths exampleBooking.checkInDate 0 :=
  ⟨(claim_C2.1 exampleBooking).1, (claim_C2.1 exampleBooking).2.1,
    fun h => (claim_C2.1 exampleBooking).2.2 0 h⟩

/-- Claim C6: a payload failing signature verification mutates nothing;
the return handler redirects to the invalid-signature failure page and the
IPN handler acks RspCode 97. -/
theorem claim_C6 (hmac : Params → String) (now : Int) (params : Params) (st : St)
    (h : verifyPaymentResult hmac params = false) :
    vnpayReturn hmac now params st = (RetRes.failedRedirect "Invalid signature", st) ∧
    vnpayIpn hmac now params st = (("97", "Invalid signature"), st) := by
  constructor
  · simp [vnpayReturn, parsePaymentResult, h]
  · simp [vnpayIpn, parsePaymentResult, h]

/-- Claim C6 witness: an unsigned empty payload against an empty store. -/
theorem claim_C6_witness :
    vnpayReturn hmacSig 0 [] ⟨[], [], [], []⟩ =
        (RetRes.failedRedirect "Invalid signature", ⟨[], [], [], []⟩) ∧
    vnpayIpn hmacSig 0 [] ⟨[], [], [], []⟩ =
        (("97", "Invalid signature"), ⟨[], [], [], []⟩) :=
  claim_C6 hmacSig 0 [] ⟨[], [], [], []⟩ rfl

/-- A pending payment whose refund sub-record carries the schema-default
status pending: not refundable per the spec, refundable per the code. -/
def c9Payment : Payment :=
  { id := 1, booking := 1, payer := 2, recipient := 3, ptype := PType.deposit,
    amount := 100, status := PStatus.pending, paymentMethod := "pending",
    vnpay := [], transactionId := "TXN1", externalTransactionId := none,
    description := none, initiatedAt := some 0, processedAt := none,
    completedAt := none, failedAt := none, failureReason := none,
    refund := ⟨none, none, none, none, some RStatus.pending⟩ }

/-- Claim C9: on a Payment that is not completed, canBeRefunded still
returns true (the && binds tighter than the ||, so the refund.status ==
pending disjunct fires alone) and processRefund succeeds instead of
throwing, setting the refund sub-record to processing. -/
theorem claim_C9 :
    c9Payment.status = PStatus.pending ∧
    c9Payment.canBeRefunded = true ∧
    c9Payment.processRefund (some 100) (some "changed") 7 =
      Except.ok { c9Payment with
        refund := ⟨some 100, some "changed", some 7, none, some RStatus.processing⟩ } :=
  ⟨rfl, by decide, rfl⟩

/-- Claim C10: a validly signed IPN payload with a response code other than
00 whose reference resolves marks that Payment failed with failedAt and the
mapped message, with no hypothesis on the prior Payment status, and leaves
every Booking unchanged. -/
theorem claim_C10 (hmac : Params → String) (now : Int) (params : Params) (st : St)
    (p : Payment) (c : String)
    (hv : verifyPaymentResult hmac params = true)
    (hf : findPaymentByTxnRef st.payments (getParam params "vnp_TxnRef") = some p)
    (hc : getParam params "vnp_ResponseCode" = some c)
    (hne : c ≠ "00") :
    (vnpayIpn hmac now params st).2.bookings = st.bookings ∧
    ∃ q, firstSuch (fun x => x.id = p.id) (vnpayIpn hmac now params st).2.payments =
        some q ∧
      q.status = PStatus.failed ∧ q.failedAt = some now ∧
      q.failureReason = some (getResponseMessage (some c)) := by
  have hf' : firstSuch (fun q => getParam q.vnpay "txnRef" = getParam params "vnp_TxnRef")
      st.payments = some p := hf
  have hres : vnpayIpn hmac now params st =
      (("00", "Success"), savePayment st { p with
        vnpay := mergeVnpay p.vnpay params,
        status := PStatus.failed, failedAt := some now,
        failureReason := some (getResponseMessage (some c)) }) := by
    simp [vnpayIpn, parsePaymentResult, hv, hf, hc, hne]
  rw [hres]
  exact ⟨rfl, ⟨_, firstSuch_savePayment hf' (by simp) rfl
    (fun x hx hid => by simpa using hid), rfl, rfl, rfl⟩⟩

/-- An already completed gateway payment used to exercise the IPN failure
branch and its missing completed-guard. -/
def c10Payment : Payment :=
  { id := 10, booking := 1, payer := 2, recipient := 3, ptype := PType.deposit,
    amount := 500, status := PStatus.completed, paymentMethod := "vnpay",
    vnpay := [("txnRef", "T1")], transactionId := "TXN10",
    externalTransactionId := some "E1", description := none, initiatedAt := some 1,
    processedAt := some 5, completedAt := some 5, failedAt := none,
    failureReason := none, refund := noRefund }

/-- The validly signed cancelled-by-customer (code 24) IPN payload. -/
def c10Params : Params :=
  [("vnp_TxnRef", "T1"), ("vnp_ResponseCode", "24"), ("vnp_SecureHash", "SIG")]

/-- The store holding only c10Payment. -/
def c10St : St := ⟨[], [c10Payment], [], []⟩

/-- Claim C10 witness: a failed-code IPN on an already completed payment. -/
theorem claim_C10_witness :
    (vnpayIpn hmacSig 9 c10Params c10St).2.bookings = c10St.bookings ∧
    ∃ q, firstSuch (fun x => x.id = c10Payment.id)
        (vnpayIpn hmacSig 9 c10Params c10St).2.payments = some q ∧
      q.status = PStatus.failed ∧ q.failedAt = some 9 ∧
      q.failureReason = some (getResponseMessage (some "24")) :=
  claim_C10 hmacSig 9 c10Params c10St c10Payment "24" rfl rfl rfl (by decide)

/-- Pending booking with its pending deposit placeholder payment, before
landlord confirmation. -/
def c1Booking : Booking :=
  { id := 1, room := 1, tenant := 2, landlord := 3,
    checkInDate := ⟨2025, 9, 1⟩, checkOutDate := ⟨2026, 0, 1⟩,
    duration := 3, numberOfOccupants := 1,
    pricing := ⟨3000000, 3000000, 200000, 12600000⟩,
    status := BStatus.pending, depositPS := depositPSDefault,
    monthly := [], cancellation := none }

/-- The pending deposit placeholder of c1Booking. -/
def c1Payment : Payment :=
  { id := 4, booking := 1, payer := 2, recipient := 3, ptype := PType.deposit,
    amount := 3000000, status := PStatus.pending, paymentMethod := "pending",
    vnpay := [], transactionId := "TXN4", externalTransactionId := none,
    description := none, initiatedAt := some 0, processedAt := none,
    completedAt := none, failedAt := none, failureReason := none, refund := noRefund }

/-- Store state after the landlord confirms c1Booking. -/
def c1Post : St :=
  (confirmBooking ⟨3, Role.landlord⟩ 1 7 ⟨[c1Booking], [c1Payment], [], []⟩).2

/-- Claim C1 counterexample: landlord confirmation marks the deposit
Payment completed while the Booking becomes confirmed, so after this listed
operation the biconditional between deposit_paid and completed fails. -/
theorem claim_C1_counterexample :
    (findBooking c1Post.bookings 1).map Booking.status = some BStatus.confirmed ∧
    (findDepositPayment c1Post.payments 1).map Payment.status =
        some PStatus.completed ∧
    ¬(((findBooking c1Post.bookings 1).map Booking.status = some BStatus.depositPaid) ↔
      ((findDepositPayment c1Post.payments 1).map Payment.status =
        some PStatus.completed)) := by
  refine ⟨by decide, by decide, ?_⟩
  intro hiff
  have := hiff.mpr (by decide)
  revert this
  decide

/-- An already completed gateway deposit payment with its deposit_paid
booking, hit again by the same successful return payload. -/
def c4Payment : Payment :=
  { id := 10, booking := 1, payer := 2, recipient := 3, ptype := PType.deposit,
    amount := 500, status := PStatus.completed, paymentMethod := "vnpay",
    vnpay := [("txnRef", "T1")], transactionId := "TXN10",
    externalTransactionId := some "E1", description := none, initiatedAt := some 1,
    processedAt := some 5, completedAt := some 5, failedAt := none,
    failureReason := none, refund := noRefund }

/-- The deposit_paid booking owning c4Payment. -/
def c4Booking : Booking :=
  { id := 1, room := 1, tenant := 2, landlord := 3,
    checkInDate := ⟨2025, 9, 1⟩, checkOutDate := ⟨2026, 0, 1⟩,
    duration := 3, numberOfOccupants := 1,
    pricing := ⟨3000000, 3000000, 200000, 12600000⟩,
    status := BStatus.depositPaid,
    depositPS := ⟨DepStat.paid, some 500, some 5, some "vnpay", some "TXN10"⟩,
    monthly := [], cancellation := none }

/-- The replayed successful return payload for c4Payment. -/
def c4Params : Params :=
  [("vnp_TxnRef", "T1"), ("vnp_ResponseCode", "00"), ("vnp_SecureHash", "SIG")]

/-- Claim C4 counterexample: the return handler, replayed on the already
completed payment, still mutates the Payment (fresh completedAt, merged raw
fields), so the success branch is not guarded by payment.status. -/
theorem claim_C4_counterexample :
    verifyPaymentResult hmacSig c4Params = true ∧
    (findPaymentByTxnRef (⟨[c4Booking], [c4Payment], [], []⟩ : St).payments
        (getParam c4Params "vnp_TxnRef")).map Payment.status = some PStatus.completed ∧
    ((vnpayReturn hmacSig 9 c4Params ⟨[c4Booking], [c4Payment], [], []⟩).2).payments ≠
      (⟨[c4Booking], [c4Payment], [], []⟩ : St).payments := by
  refine ⟨by decide, by decide, ?_⟩
  decide

/-- Confirmed booking with a pending deposit payment, cancelled through
the generalized status route by an admin. -/
def c8Booking : Booking :=
  { id := 1, room := 1, tenant := 2, landlord := 3,
    checkInDate := ⟨2025, 9, 1⟩, checkOutDate := ⟨2026, 0, 1⟩,
    duration := 3, numberOfOccupants := 1,
    pricing := ⟨3000000, 3000000, 200000, 12600000⟩,
    status := BStatus.confirmed, depositPS := depositPSDefault,
    monthly := [], cancellation := none }

/-- The pending deposit payment of c8Booking. -/
def c8Payment : Payment :=
  { id := 2, booking := 1, payer := 2, recipient := 3, ptype := PType.deposit,
    amount := 3000000, status := PStatus.pending, paymentMethod := "pending",
    vnpay := [], transactionId := "TXN2", externalTransactionId := none,
    description := none, initiatedAt := some 0, processedAt := none,
    completedAt := none, failedAt := none, failureReason := none, refund := noRefund }

/-- Store state after the admin cancels c8Booking through PUT /:id/status. -/
def c8Post : St :=
  (statusUpdate ⟨9, Role.admin⟩ 1 BStatus.cancelled (some "spam") none none 7 99
    ⟨[c8Booking], [c8Payment], [], []⟩).2

/-- Claim C3: with the room active and available and the requester not the
landlord, creation returns the conflict error with the store untouched
exactly when some existing booking of that room in a non-terminal status
overlaps the requested range under existing.checkIn ≤ new.checkOut and
existing.checkOut ≥ new.checkIn; with no such overlap a new Booking for
the room is persisted. -/
theorem claim_C3 (actor : Actor) (body : CreateBody) (now : Int) (nbid npid : Nat)
    (st : St) (room : Room)
    (hrole : actor.role = Role.tenant)
    (hroom : findRoom st.rooms body.roomId = some room)
    (hact : room.rstatus = "active")
    (hav : room.isAvailable = true)
    (hself : room.landlord ≠ actor.id) :
    (((createBooking actor body now nbid npid st).1 = CrRes.conflict ∧
        (createBooking actor body now nbid npid st).2 = st) ↔
      ∃ b ∈ st.bookings,
        overlapConflict body.roomId body.checkInDate body.checkOutDate b = true) ∧
    ((¬ ∃ b ∈ st.bookings,
        overlapConflict body.roomId body.checkInDate body.checkOutDate b = true) →
      (createBooking actor body now nbid npid st).1 = CrRes.created ∧
      ∃ nb, (createBooking actor body now nbid npid st).2.bookings =
          st.bookings ++ [nb] ∧ nb.room = body.roomId) := by
  by_cases hov : ∃ b ∈ st.bookings,
      overlapConflict body.roomId body.checkInDate body.checkOutDate b = true
  · have hsome : (firstSuch
        (overlapConflict body.roomId body.checkInDate body.checkOutDate)
        st.bookings).isSome := firstSuch_isSome_iff.mpr hov
    have hres : createBooking actor body now nbid npid st = (CrRes.conflict, st) := by
      simp [createBooking, hrole, hroom, hact, hav, hself, hsome]
    rw [hres]
    exact ⟨⟨fun _ => hov, fun _ => ⟨rfl, rfl⟩⟩, fun hn => absurd hov hn⟩
  · have hnone : firstSuch
        (overlapConflict body.roomId body.checkInDate body.checkOutDate)
        st.bookings = none := by
      cases hfs : firstSuch
          (overlapConflict body.roomId body.checkInDate body.checkOutDate)
          st.bookings with
      | none => rfl
      | some x =>
          exact absurd (firstSuch_isSome_iff.mp (by simp [hfs])) hov
    have hres : createBooking actor body now nbid npid st =
        (CrRes.created, insertPayment
          (pushNotifs (insertBooking st (builtBooking actor body room nbid))
            [⟨actor.id, "booking_request"⟩, ⟨room.landlord, "booking_request"⟩])
          { id := npid, booking := nbid, payer := actor.id,
            recipient := room.landlord, ptype := PType.deposit,
            amount := (builtBooking actor body room nbid).pricing.deposit,
            status := PStatus.pending, paymentMethod := "pending", vnpay := [],
            transactionId := genTxnId npid, externalTransactionId := none,
            description := some defaultDesc, initiatedAt := some now,
            processedAt := none, completedAt := none, failedAt := none,
            failureReason := none, refund := noRefund }) := by
      simp [createBooking, hrole, hroom, hact, hav, hself, hnone]
    rw [hres]
    refine ⟨⟨fun h1 => absurd h1.1 (by simp), fun hex => absurd hex hov⟩, ?_⟩
    intro _
    exact ⟨rfl, ⟨builtBooking actor body room nbid, rfl, rfl⟩⟩

/-- The active, available room of the C3 scenario, owned by user 3. -/
def c3Room : Room := ⟨1, 3, "active", true, 3000000, 3000000, some 200000⟩

/-- An existing confirmed booking of c3Room over October to January. -/
def c3Existing : Booking :=
  { id := 1, room := 1, tenant := 4, landlord := 3,
    checkInDate := ⟨2025, 9, 1⟩, checkOutDate := ⟨2026, 0, 1⟩,
    duration := 3, numberOfOccupants := 1,
    pricing := ⟨3000000, 3000000, 200000, 12600000⟩,
    status := BStatus.confirmed, depositPS := depositPSDefault,
    monthly := [], cancellation := none }

/-- A creation request for c3Room overlapping c3Existing. -/
def c3Body : CreateBody :=
  { roomId := 1, checkInDate := ⟨2025, 10, 1⟩, checkOutDate := ⟨2026, 1, 1⟩,
    duration := some 3, numberOfOccupants := 1, monthlyRent := none,
    deposit := none, utilities := none, totalAmount := none }

/-- The store of the C3 scenario. -/
def c3St : St := ⟨[c3Existing], [], [], [c3Room]⟩

/-- Claim C3 witness: the overlap scenario instantiated; the request
conflicts with the existing confirmed booking and persists nothing. -/
theorem claim_C3_witness :
    (((createBooking ⟨2, Role.tenant⟩ c3Body 0 7 8 c3St).1 = CrRes.conflict ∧
        (createBooking ⟨2, Role.tenant⟩ c3Body 0 7 8 c3St).2 = c3St) ↔
      ∃ b ∈ c3St.bookings,
        overlapConflict c3Body.roomId c3Body.checkInDate c3Body.checkOutDate b = true) ∧
    ((¬ ∃ b ∈ c3St.bookings,
        overlapConflict c3Body.roomId c3Body.checkInDate c3Body.checkOutDate b = true) →
      (createBooking ⟨2, Role.tenant⟩ c3Body 0 7 8 c3St).1 = CrRes.created ∧
      ∃ nb, (createBooking ⟨2, Role.tenant⟩ c3Body 0 7 8 c3St).2.bookings =
          c3St.bookings ++ [nb] ∧ nb.room = c3Body.roomId) :=
  claim_C3 ⟨2, Role.tenant⟩ c3Body 0 7 8 c3St c3Room rfl rfl rfl rfl (by decide)

/-- Rejection half of the cancel endpoint: outside cancellable statuses
nothing changes. -/
theorem cancelBooking_reject (actor : Actor) (bid : Nat) (reason : Option String)
    (now : Int) (st : St) (b : Booking)
    (hb : findBooking st.bookings bid = some b)
    (hacc : actor.role = Role.admin ∨ b.tenant = actor.id ∨ b.landlord = actor.id)
    (hcc : b.canBeCancelled = false) :
    cancelBooking actor bid reason now st = (CanRes.cannotCancel, st) := by
  rcases hacc with h | h | h
  · simp [cancelBooking, hb, h, hcc]
  · by_cases ha : actor.role = Role.admin
    · simp [cancelBooking, hb, ha, hcc]
    · simp [cancelBooking, hb, ha, h, hcc]
  · by_cases ha : actor.role = Role.admin
    · simp [cancelBooking, hb, ha, hcc]
    · by_cases ht : b.tenant = actor.id
      · simp [cancelBooking, hb, ha, ht, hcc]
      · simp [cancelBooking, hb, ha, ht, h, hcc]

/-- The booking written by a successful cancel: status cancelled and the
cancellation record stamped. -/
def cancelledDoc (b : Booking) (cb : CancelActor) (now : Int)
    (reason : Option String) : Booking :=
  { b with
      status := BStatus.cancelled,
      cancellation := some ⟨cb, now, jsOrStr reason "Không có lý do"⟩ }

/-- Success half of the cancel endpoint: the booking becomes cancelled with
the resolved cancelledBy actor recorded. -/
theorem cancelBooking_success (actor : Actor) (bid : Nat) (reason : Option String)
    (now : Int) (st : St) (b : Booking) (cb : CancelActor)
    (hb : findBooking st.bookings bid = some b)
    (hcan : b.canBeCancelled = true)
    (hcb : (actor.role = Role.admin ∧ cb = CancelActor.admin) ∨
      (actor.role ≠ Role.admin ∧ b.tenant = actor.id ∧ cb = CancelActor.tenant) ∨
      (actor.role ≠ Role.admin ∧ b.tenant ≠ actor.id ∧ b.landlord = actor.id ∧
        cb = CancelActor.landlord)) :
    (cancelBooking actor bid reason now st).1 = CanRes.ok ∧
    findBooking (cancelBooking actor bid reason now st).2.bookings bid =
      some (cancelledDoc b cb now reason) := by
  have hb' : firstSuch (fun x => x.id = bid) st.bookings = some b := hb
  have hfind : ∀ stX : St, stX.bookings =
        (saveBooking st (cancelledDoc b cb now reason)).bookings →
      findBooking stX.bookings bid = some (cancelledDoc b cb now reason) := by
    intro stX hX
    show firstSuch (fun x => x.id = bid) stX.bookings = _
    rw [hX]
    exact firstSuch_saveBooking hb'
      (by simpa [cancelledDoc] using firstSuch_eq_some hb') rfl (fun x hx _ => hx)
  rcases hcb with ⟨ha, hcbv⟩ | ⟨ha, ht, hcbv⟩ | ⟨ha, ht, hl, hcbv⟩ <;> subst hcbv
  · constructor
    · simp [cancelBooking, hb, ha, hcan]
    · refine hfind _ ?_
      simp [cancelBooking, hb, ha, hcan, cancelledDoc]
  · constructor
    · simp [cancelBooking, hb, ha, ht, hcan]
    · refine hfind _ ?_
      simp [cancelBooking, hb, ha, ht, hcan, cancelledDoc]
  · constructor
    · simp [cancelBooking, hb, ha, ht, hl, hcan]
    · refine hfind _ ?_
      simp [cancelBooking, hb, ha, ht, hl, hcan, cancelledDoc]

/-- Claim C7: cancelling a booking outside the cancellable statuses fails
with the state-conflict error and leaves the store unchanged; cancelling a
pending booking succeeds and stamps cancellation.cancelledBy as admin by
role, else tenant or landlord by ownership. -/
theorem claim_C7 (actor : Actor) (bid : Nat) (reason : Option String) (now : Int)
    (st : St) (b : Booking)
    (hb : findBooking st.bookings bid = some b)
    (hauth : actor.role = Role.admin ∨ b.tenant = actor.id ∨ b.landlord = actor.id) :
    (b.canBeCancelled = false →
      cancelBooking actor bid reason now st = (CanRes.cannotCancel, st)) ∧
    (b.status = BStatus.pending →
      (cancelBooking actor bid reason now st).1 = CanRes.ok ∧
      ∃ b', findBooking (cancelBooking actor bid reason now st).2.bookings bid =
          some b' ∧
        b'.status = BStatus.cancelled ∧
        b'.cancellation = some ⟨(if actor.role = Role.admin then CancelActor.admin
          else if b.tenant = actor.id then CancelActor.tenant
          else CancelActor.landlord), now, jsOrStr reason "Không có lý do"⟩) := by
  refine ⟨fun hcc => cancelBooking_reject actor bid reason now st b hb hauth hcc, ?_⟩
  intro hpend
  have hcan : b.canBeCancelled = true := by simp [Booking.canBeCancelled, hpend]
  by_cases ha : actor.role = Role.admin
  · have hmain := cancelBooking_success actor bid reason now st b CancelActor.admin
      hb hcan (Or.inl ⟨ha, rfl⟩)
    exact ⟨hmain.1, ⟨_, hmain.2, rfl, by simp [cancelledDoc, ha]⟩⟩
  · by_cases ht : b.tenant = actor.id
    · have hmain := cancelBooking_success actor bid reason now st b CancelActor.tenant
        hb hcan (Or.inr (Or.inl ⟨ha, ht, rfl⟩))
      exact ⟨hmain.1, ⟨_, hmain.2, rfl, by simp [cancelledDoc, ha, ht]⟩⟩
    · have hl : b.landlord = actor.id := by
        rcases hauth with h | h | h
        · exact absurd h ha
        · exact absurd h ht
        · exact h
      have hmain := cancelBooking_success actor bid reason now st b
        CancelActor.landlord hb hcan (Or.inr (Or.inr ⟨ha, ht, hl, rfl⟩))
      exact ⟨hmain.1, ⟨_, hmain.2, rfl, by simp [cancelledDoc, ha, ht]⟩⟩

/-- A completed booking that the cancel endpoint must refuse to cancel. -/
def c7Completed : Booking :=
  { id := 2, room := 1, tenant := 2, landlord := 3,
    checkInDate := ⟨2024, 0, 1⟩, checkOutDate := ⟨2024, 6, 1⟩,
    duration := 6, numberOfOccupants := 1,
    pricing := ⟨3000000, 3000000, 200000, 22200000⟩,
    status := BStatus.completed, depositPS := depositPSDefault,
    monthly := [], cancellation := none }

/-- A pending booking of tenant 2 that the tenant cancels in the C7
witness. -/
def c7Pending : Booking :=
  { id := 1, room := 1, tenant := 2, landlord := 3,
    checkInDate := ⟨2025, 9, 1⟩, checkOutDate := ⟨2026, 0, 1⟩,
    duration := 3, numberOfOccupants := 1,
    pricing := ⟨3000000, 3000000, 200000, 12600000⟩,
    status := BStatus.pending, depositPS := depositPSDefault,
    monthly := [], cancellation := none }

/-- Claim C7 witness: the tenant cannot cancel their completed booking,
and cancels their pending booking with cancelledBy tenant. -/
theorem claim_C7_witness :
    cancelBooking ⟨2, Role.tenant⟩ 2 (some "late") 7 ⟨[c7Completed], [], [], []⟩ =
      (CanRes.cannotCancel, ⟨[c7Completed], [], [], []⟩) ∧
    (cancelBooking ⟨2, Role.tenant⟩ 1 (some "late") 7 ⟨[c7Pending], [], [], []⟩).1 =
      CanRes.ok ∧
    ∃ b', findBooking
        (cancelBooking ⟨2, Role.tenant⟩ 1 (some "late") 7
          ⟨[c7Pending], [], [], []⟩).2.bookings 1 = some b' ∧
      b'.status = BStatus.cancelled ∧
      b'.cancellation = some ⟨(if (⟨2, Role.tenant⟩ : Actor).role = Role.admin
          then CancelActor.admin
        else if c7Pending.tenant = (⟨2, Role.tenant⟩ : Actor).id
          then CancelActor.tenant
        else CancelActor.landlord), 7, jsOrStr (some "late") "Không có lý do"⟩ :=
  ⟨(claim_C7 ⟨2, Role.tenant⟩ 2 (some "late") 7 ⟨[c7Completed], [], [], []⟩
      c7Completed rfl (Or.inr (Or.inl rfl))).1 (by decide),
   ((claim_C7 ⟨2, Role.tenant⟩ 1 (some "late") 7 ⟨[c7Pending], [], [], []⟩
      c7Pending rfl (Or.inr (Or.inl rfl))).2 rfl).1,
   ((claim_C7 ⟨2, Role.tenant⟩ 1 (some "late") 7 ⟨[c7Pending], [], [], []⟩
      c7Pending rfl (Or.inr (Or.inl rfl))).2 rfl).2⟩

/-- The store of the C8 scenarios: one confirmed booking with one pending
deposit payment. -/
def c8St : St := ⟨[c8Booking], [c8Payment], [], []⟩

/-- Payment half of a successful cancel: the pending first Payment of the
booking becomes failed with the booking-cancelled reason. -/
theorem cancelBooking_failsPending (actor : Actor) (bid : Nat)
    (reason : Option String) (now : Int) (st : St) (b : Booking) (p : Payment)
    (cb : CancelActor)
    (hb : findBooking st.bookings bid = some b)
    (hcan : b.canBeCancelled = true)
    (hcb : (actor.role = Role.admin ∧ cb = CancelActor.admin) ∨
      (actor.role ≠ Role.admin ∧ b.tenant = actor.id ∧ cb = CancelActor.tenant) ∨
      (actor.role ≠ Role.admin ∧ b.tenant ≠ actor.id ∧ b.landlord = actor.id ∧
        cb = CancelActor.landlord))
    (hp : findPaymentByBooking st.payments bid = some p)
    (hps : p.status = PStatus.pending) :
    ∃ q, firstSuch (fun x => x.id = p.id)
        (cancelBooking actor bid reason now st).2.payments = some q ∧
      q.status = PStatus.failed ∧ q.failureReason = some "Đặt phòng bị hủy" ∧
      q.failedAt = some now := by
  have hred : (cancelBooking actor bid reason now st).2.payments =
      (failPendingPayment (saveBooking st (cancelledDoc b cb now reason))
        bid now).payments := by
    rcases hcb with ⟨ha, hcbv⟩ | ⟨ha, ht, hcbv⟩ | ⟨ha, ht, hl, hcbv⟩ <;> subst hcbv
    · simp [cancelBooking, hb, ha, hcan, cancelledDoc]
    · simp [cancelBooking, hb, ha, ht, hcan, cancelledDoc]
    · simp [cancelBooking, hb, ha, ht, hl, hcan, cancelledDoc]
  have hp1 : findPaymentByBooking
      (saveBooking st (cancelledDoc b cb now reason)).payments bid = some p := by
    simpa using hp
  have hp1' : firstSuch (fun x => x.booking = bid)
      (saveBooking st (cancelledDoc b cb now reason)).payments = some p := hp1
  have h2 : failPendingPayment (saveBooking st (cancelledDoc b cb now reason)) bid now
      = savePayment (saveBooking st (cancelledDoc b cb now reason))
        { p with
            status := PStatus.failed, failedAt := some now,
            failureReason := some "Đặt phòng bị hủy" } := by
    simp [failPendingPayment, hp, hps]
  rw [hred, h2]
  exact ⟨_, firstSuch_savePayment hp1' (by simp) rfl
    (fun x hx hid => by simpa using hid), rfl, rfl, rfl⟩

/-- Claim C8 (amended): both cancellation paths record the cancellation;
only the dedicated cancel endpoint fails the pending Payment, while the
generalized status route leaves the Payment collection unchanged. -/
theorem claim_C8 :
    (∀ (actor : Actor) (bid : Nat) (reason reqM reqT : Option String) (now : Int)
        (npid : Nat) (st : St) (b : Booking),
      findBooking st.bookings bid = some b →
      (actor.role = Role.admin ∨ (actor.role = Role.landlord ∧ b.landlord = actor.id)
        ∨ (actor.role = Role.tenant ∧ b.tenant = actor.id)) →
      b.canBeCancelled = true →
      (statusUpdate actor bid BStatus.cancelled reason reqM reqT now npid st).2.payments
          = st.payments ∧
      ∃ b', findBooking
          (statusUpdate actor bid BStatus.cancelled reason reqM reqT now npid
            st).2.bookings bid = some b' ∧
        b'.status = BStatus.cancelled ∧
        b'.cancellation = some ⟨(if actor.role = Role.admin then CancelActor.admin
          else if actor.role = Role.tenant ∧ b.tenant = actor.id then CancelActor.tenant
          else CancelActor.landlord), now, jsOrStr reason "Không có lý do"⟩) ∧
    (∀ (actor : Actor) (bid : Nat) (reason : Option String) (now : Int) (st : St)
        (b : Booking) (p : Payment),
      findBooking st.bookings bid = some b →
      (actor.role = Role.admin ∨ b.tenant = actor.id ∨ b.landlord = actor.id) →
      b.canBeCancelled = true →
      findPaymentByBooking st.payments bid = some p →
      p.status = PStatus.pending →
      (∃ b', findBooking (cancelBooking actor bid reason now st).2.bookings bid =
          some b' ∧ b'.status = BStatus.cancelled ∧
          ∃ cb, b'.cancellation = some ⟨cb, now, jsOrStr reason "Không có lý do"⟩) ∧
      ∃ q, firstSuch (fun x => x.id = p.id)
          (cancelBooking actor bid reason now st).2.payments = some q ∧
        q.status = PStatus.failed ∧ q.failureReason = some "Đặt phòng bị hủy" ∧
        q.failedAt = some now) := by
  constructor
  · intro actor bid reason reqM reqT now npid st b hb hauth hcan
    have hb' : firstSuch (fun x => x.id = bid) st.bookings = some b := hb
    rcases hauth with ha | ⟨hr, ho⟩ | ⟨hr, ho⟩
    · refine ⟨by simp [statusUpdate, hb, ha, hcan, roleOfCancel], ?_⟩
      refine ⟨cancelledDoc b CancelActor.admin now reason, ?_, rfl,
        by simp [cancelledDoc, ha]⟩
      have hred : (statusUpdate actor bid BStatus.cancelled reason reqM reqT now npid
            st).2.bookings =
          (saveBooking st (cancelledDoc b CancelActor.admin now reason)).bookings := by
        simp [statusUpdate, hb, ha, hcan, cancelledDoc, roleOfCancel]
      show firstSuch (fun x : Booking => x.id = bid)
          (statusUpdate actor bid BStatus.cancelled reason reqM reqT now npid
            st).2.bookings = some (cancelledDoc b CancelActor.admin now reason)
      rw [hred]
      exact firstSuch_saveBooking hb'
        (by simpa [cancelledDoc] using firstSuch_eq_some hb') rfl (fun x hx _ => hx)
    · have ha : ¬ actor.role = Role.admin := by rw [hr]; decide
      have hnt : ¬ actor.role = Role.tenant := by rw [hr]; decide
      refine ⟨by simp [statusUpdate, hb, ha, hr, ho, hcan, roleOfCancel], ?_⟩
      refine ⟨cancelledDoc b CancelActor.landlord now reason, ?_, rfl,
        by simp [cancelledDoc, ha, hnt]⟩
      have hred : (statusUpdate actor bid BStatus.cancelled reason reqM reqT now npid
            st).2.bookings =
          (saveBooking st (cancelledDoc b CancelActor.landlord now reason)).bookings := by
        simp [statusUpdate, hb, ha, hr, ho, hcan, cancelledDoc, roleOfCancel]
      show firstSuch (fun x : Booking => x.id = bid)
          (statusUpdate actor bid BStatus.cancelled reason reqM reqT now npid
            st).2.bookings = some (cancelledDoc b CancelActor.landlord now reason)
      rw [hred]
      exact firstSuch_saveBooking hb'
        (by simpa [cancelledDoc] using firstSuch_eq_some hb') rfl (fun x hx _ => hx)
    · have ha : ¬ actor.role = Role.admin := by rw [hr]; decide
      refine ⟨by simp [statusUpdate, hb, ha, hr, ho, hcan, roleOfCancel], ?_⟩
      refine ⟨cancelledDoc b CancelActor.tenant now reason, ?_, rfl,
        by simp [cancelledDoc, ha, hr, ho]⟩
      have hred : (statusUpdate actor bid BStatus.cancelled reason reqM reqT now npid
            st).2.bookings =
          (saveBooking st (cancelledDoc b CancelActor.tenant now reason)).bookings := by
        simp [statusUpdate, hb, ha, hr, ho, hcan, cancelledDoc, roleOfCancel]
      show firstSuch (fun x : Booking => x.id = bid)
          (statusUpdate actor bid BStatus.cancelled reason reqM reqT now npid
            st).2.bookings = some (cancelledDoc b CancelActor.tenant now reason)
      rw [hred]
      exact firstSuch_saveBooking hb'
        (by simpa [cancelledDoc] using firstSuch_eq_some hb') rfl (fun x hx _ => hx)
  · intro actor bid reason now st b p hb hauth hcan hp hps
    by_cases ha : actor.role = Role.admin
    · have hmain := cancelBooking_success actor bid reason now st b CancelActor.admin
        hb hcan (Or.inl ⟨ha, rfl⟩)
      exact ⟨⟨_, hmain.2, rfl, ⟨CancelActor.admin, rfl⟩⟩,
        cancelBooking_failsPending actor bid reason now st b p CancelActor.admin
          hb hcan (Or.inl ⟨ha, rfl⟩) hp hps⟩
    · by_cases ht : b.tenant = actor.id
      · have hmain := cancelBooking_success actor bid reason now st b
          CancelActor.tenant hb hcan (Or.inr (Or.inl ⟨ha, ht, rfl⟩))
        exact ⟨⟨_, hmain.2, rfl, ⟨CancelActor.tenant, rfl⟩⟩,
          cancelBooking_failsPending actor bid reason now st b p CancelActor.tenant
            hb hcan (Or.inr (Or.inl ⟨ha, ht, rfl⟩)) hp hps⟩
      · have hl : b.landlord = actor.id := by
          rcases hauth with h | h | h
          · exact absurd h ha
          · exact absurd h ht
          · exact h
        have hmain := cancelBooking_success actor bid reason now st b
          CancelActor.landlord hb hcan (Or.inr (Or.inr ⟨ha, ht, hl, rfl⟩))
        exact ⟨⟨_, hmain.2, rfl, ⟨CancelActor.landlord, rfl⟩⟩,
          cancelBooking_failsPending actor bid reason now st b p CancelActor.landlord
            hb hcan (Or.inr (Or.inr ⟨ha, ht, hl, rfl⟩)) hp hps⟩

/-- Field view of the booking returned by the deposit_paid block: status
carried over from the target-stamped booking, deposit sub-record paid. -/
theorem depositPaidStep_snd (st : St) (bid : Nat) (b b2 : Booking) (method : String)
    (reqTxnRef : Option String) (now : Int) (npid : Nat) :
    (depositPaidStep st bid b b2 method reqTxnRef now npid).2.status = b2.status ∧
    (depositPaidStep st bid b b2 method reqTxnRef now npid).2.id = b2.id ∧
    (depositPaidStep st bid b b2 method reqTxnRef now npid).2.depositPS.dstatus =
      DepStat.paid := by
  unfold depositPaidStep
  cases findDepositPayment st.payments bid <;> exact ⟨rfl, rfl, rfl⟩

/-- After the deposit_paid block, the deposit Payment of the booking exists
and is completed, whether it was found or freshly created. -/
theorem depositPaidStep_payment (st : St) (bid : Nat) (b b2 : Booking)
    (method : String) (reqTxnRef : Option String) (now : Int) (npid : Nat) :
    ∃ q, findDepositPayment
        (depositPaidStep st bid b b2 method reqTxnRef now npid).1.payments bid =
      some q ∧ q.status = PStatus.completed := by
  unfold depositPaidStep
  cases hdp : findDepositPayment st.payments bid with
  | none =>
      exact ⟨_, firstSuch_insertPayment hdp (by simp), rfl⟩
  | some pay =>
      have hpp := firstSuch_eq_some (show firstSuch
        (fun p => p.booking = bid && p.ptype = PType.deposit) st.payments = some pay
        from hdp)
      exact ⟨_, firstSuch_savePayment hdp (by simpa using hpp) rfl
        (fun x hx _ => hx), rfl⟩

/-- Claim C1 (amended): a successful generalized status update with target
deposit_paid from another status leaves the Booking in deposit_paid with
paymentStatus.deposit.status paid and its deposit Payment completed. -/
theorem claim_C1 (actor : Actor) (bid : Nat) (reason reqM reqT : Option String)
    (now : Int) (npid : Nat) (st : St) (b : Booking)
    (hb : findBooking st.bookings bid = some b)
    (hauth : actor.role = Role.admin ∨
      (actor.role = Role.landlord ∧ b.landlord = actor.id) ∨
      (actor.role = Role.tenant ∧ b.tenant = actor.id))
    (hof : b.status ≠ BStatus.depositPaid) :
    (statusUpdate actor bid BStatus.depositPaid reason reqM reqT now npid st).1 =
        UpdRes.ok ∧
    (∃ b', findBooking
        (statusUpdate actor bid BStatus.depositPaid reason reqM reqT now npid
          st).2.bookings bid = some b' ∧
      b'.status = BStatus.depositPaid ∧ b'.depositPS.dstatus = DepStat.paid) ∧
    (∃ q, findDepositPayment
        (statusUpdate actor bid BStatus.depositPaid reason reqM reqT now npid
          st).2.payments bid = some q ∧ q.status = PStatus.completed) := by
  have hb' : firstSuch (fun x : Booking => x.id = bid) st.bookings = some b := hb
  have hbid := firstSuch_eq_some hb'
  have main : ∀ h1 : (statusUpdate actor bid BStatus.depositPaid reason reqM reqT now
        npid st).1 = UpdRes.ok,
      ∀ hred : (statusUpdate actor bid BStatus.depositPaid reason reqM reqT now npid
          st).2.bookings =
        (saveBooking (depositPaidStep st bid b { b with status := BStatus.depositPaid }
            (jsOrStr reqM "bank_transfer") reqT now npid).1
          (depositPaidStep st bid b { b with status := BStatus.depositPaid }
            (jsOrStr reqM "bank_transfer") reqT now npid).2).bookings,
      ∀ hpay : (statusUpdate actor bid BStatus.depositPaid reason reqM reqT now npid
          st).2.payments =
        (depositPaidStep st bid b { b with status := BStatus.depositPaid }
          (jsOrStr reqM "bank_transfer") reqT now npid).1.payments,
      (statusUpdate actor bid BStatus.depositPaid reason reqM reqT now npid st).1 =
          UpdRes.ok ∧
      (∃ b', findBooking
          (statusUpdate actor bid BStatus.depositPaid reason reqM reqT now npid
            st).2.bookings bid = some b' ∧
        b'.status = BStatus.depositPaid ∧ b'.depositPS.dstatus = DepStat.paid) ∧
      (∃ q, findDepositPayment
          (statusUpdate actor bid BStatus.depositPaid reason reqM reqT now npid
            st).2.payments bid = some q ∧ q.status = PStatus.completed) := by
    intro h1 hred hpay
    obtain ⟨hs, hid, hds⟩ := depositPaidStep_snd st bid b
      { b with status := BStatus.depositPaid } (jsOrStr reqM "bank_transfer")
      reqT now npid
    refine ⟨h1, ?_, ?_⟩
    · refine ⟨(depositPaidStep st bid b { b with status := BStatus.depositPaid }
        (jsOrStr reqM "bank_transfer") reqT now npid).2, ?_, by rw [hs], hds⟩
      have hb1 : firstSuch (fun x : Booking => x.id = bid)
          (depositPaidStep st bid b { b with status := BStatus.depositPaid }
            (jsOrStr reqM "bank_transfer") reqT now npid).1.bookings = some b := by
        rw [depositPaidStep_fst_bookings]
        exact hb'
      show firstSuch (fun x : Booking => x.id = bid)
          (statusUpdate actor bid BStatus.depositPaid reason reqM reqT now npid
            st).2.bookings = _
      rw [hred]
      exact firstSuch_saveBooking hb1 (by simp only [hid]; simpa using hbid)
        (by rw [hid]) (fun x hx _ => hx)
    · obtain ⟨q, hq1, hq2⟩ := depositPaidStep_payment st bid b
        { b with status := BStatus.depositPaid } (jsOrStr reqM "bank_transfer")
        reqT now npid
      refine ⟨q, ?_, hq2⟩
      show findDepositPayment
          (statusUpdate actor bid BStatus.depositPaid reason reqM reqT now npid
            st).2.payments bid = some q
      rw [hpay]
      exact hq1
  rcases hauth with ha | ⟨hr, ho⟩ | ⟨hr, ho⟩
  · exact main (by simp [statusUpdate, hb, ha, hof])
      (by simp [statusUpdate, hb, ha, hof])
      (by simp [statusUpdate, hb, ha, hof])
  · exact main (by simp [statusUpdate, hb, hr, ho, hof])
      (by simp [statusUpdate, hb, hr, ho, hof])
      (by simp [statusUpdate, hb, hr, ho, hof])
  · exact main (by simp [statusUpdate, hb, hr, ho, hof])
      (by simp [statusUpdate, hb, hr, ho, hof])
      (by simp [statusUpdate, hb, hr, ho, hof])

/-- Claim C1 witness: the landlord moves their confirmed booking with its
pending deposit payment to deposit_paid through the status route. -/
theorem claim_C1_witness :
    (statusUpdate ⟨3, Role.landlord⟩ 1 BStatus.depositPaid none none none 7 99
        c8St).1 = UpdRes.ok ∧
    (∃ b', findBooking (statusUpdate ⟨3, Role.landlord⟩ 1 BStatus.depositPaid none
          none none 7 99 c8St).2.bookings 1 = some b' ∧
      b'.status = BStatus.depositPaid ∧ b'.depositPS.dstatus = DepStat.paid) ∧
    (∃ q, findDepositPayment (statusUpdate ⟨3, Role.landlord⟩ 1 BStatus.depositPaid
          none none none 7 99 c8St).2.payments 1 = some q ∧
      q.status = PStatus.completed) :=
  by
  have hb : findBooking c8St.bookings 1 = some c8Booking := by decide
  exact claim_C1 ⟨3, Role.landlord⟩ 1 none none none 7 99 c8St c8Booking hb
    (Or.inr (Or.inl ⟨rfl, rfl⟩)) (by decide)

/-- Claim C8 witness: the admin cancels through the status route (payments
untouched, cancellation recorded), the tenant cancels through the cancel
endpoint (pending payment failed with the booking-cancelled reason). -/
theorem claim_C8_witness :
    ((statusUpdate ⟨9, Role.admin⟩ 1 BStatus.cancelled (some "spam") none none 7 99
        c8St).2.payments = c8St.payments ∧
      ∃ b', findBooking (statusUpdate ⟨9, Role.admin⟩ 1 BStatus.cancelled (some "spam")
          none none 7 99 c8St).2.bookings 1 = some b' ∧
        b'.status = BStatus.cancelled ∧
        b'.cancellation = some ⟨(if (⟨9, Role.admin⟩ : Actor).role = Role.admin
            then CancelActor.admin
          else if (⟨9, Role.admin⟩ : Actor).role = Role.tenant ∧
              c8Booking.tenant = (⟨9, Role.admin⟩ : Actor).id then CancelActor.tenant
          else CancelActor.landlord), 7, jsOrStr (some "spam") "Không có lý do"⟩) ∧
    ((∃ b', findBooking (cancelBooking ⟨2, Role.tenant⟩ 1 (some "x") 7
          c8St).2.bookings 1 = some b' ∧ b'.status = BStatus.cancelled ∧
        ∃ cb, b'.cancellation = some ⟨cb, 7, jsOrStr (some "x") "Không có lý do"⟩) ∧
      ∃ q, firstSuch (fun x => x.id = c8Payment.id)
          (cancelBooking ⟨2, Role.tenant⟩ 1 (some "x") 7 c8St).2.payments = some q ∧
        q.status = PStatus.failed ∧ q.failureReason = some "Đặt phòng bị hủy" ∧
        q.failedAt = some 7) :=
  ⟨claim_C8.1 ⟨9, Role.admin⟩ 1 (some "spam") none none 7 99 c8St c8Booking rfl
      (Or.inl rfl) (by decide),
   claim_C8.2 ⟨2, Role.tenant⟩ 1 (some "x") 7 c8St c8Booking c8Payment rfl
      (Or.inr (Or.inl rfl)) (by decide) rfl rfl⟩

/-- Claim C8 counterexample: the generalized status route cancels the
Booking and records the cancellation but leaves the pending Payment
untouched, so the payment-failing side effect claimed for both endpoints
is missing on this one. -/
theorem claim_C8_counterexample :
    (findBooking c8Post.bookings 1).map Booking.status = some BStatus.cancelled ∧
    c8Post.payments = [c8Payment] ∧
    c8Payment.status = PStatus.pending := by
  refine ⟨by decide, by decide, rfl⟩

/-- Claim C4 (amended): the return handler's success branch carries no
already-completed guard: whatever the prior Payment status — including
completed — it re-marks the Payment completed with fresh timestamps and
re-advances the deposit Booking to deposit_paid. -/
theorem claim_C4 (hmac : Params → String) (now : Int) (params : Params) (st : St)
    (p : Payment)
    (hv : verifyPaymentResult hmac params = true)
    (hf : findPaymentByTxnRef st.payments (getParam params "vnp_TxnRef") = some p)
    (hc : getParam params "vnp_ResponseCode" = some "00") :
    (∃ q, firstSuch (fun x => x.id = p.id)
        (vnpayReturn hmac now params st).2.payments = some q ∧
      q.status = PStatus.completed ∧ q.processedAt = some now ∧
      q.completedAt = some now) ∧
    (∀ b, p.ptype = PType.deposit → findBooking st.bookings p.booking = some b →
      ∃ b', findBooking (vnpayReturn hmac now params st).2.bookings p.booking =
          some b' ∧ b'.status = BStatus.depositPaid) := by
  have hf' : firstSuch
      (fun x => getParam x.vnpay "txnRef" = getParam params "vnp_TxnRef")
      st.payments = some p := hf
  have hres : vnpayReturn hmac now params st =
      (RetRes.successRedirect (getParam params "vnp_TxnRef"),
        savePayment (pushNotifs
          (if p.ptype = PType.deposit then advanceDepositReturn st p now else st)
          [⟨p.payer, "payment_received"⟩, ⟨p.recipient, "payment_received"⟩])
        { p with
            status := PStatus.completed, processedAt := some now,
            completedAt := some now,
            externalTransactionId := getParam params "vnp_TransactionNo",
            vnpay := mergeVnpay p.vnpay params }) := by
    simp [vnpayReturn, parsePaymentResult, hv, hf, hc]
  have hXpay : (pushNotifs
      (if p.ptype = PType.deposit then advanceDepositReturn st p now else st)
      [⟨p.payer, "payment_received"⟩, ⟨p.recipient, "payment_received"⟩]).payments
      = st.payments := by
    by_cases hd : p.ptype = PType.deposit <;> simp [hd]
  have hfX : firstSuch
      (fun x => getParam x.vnpay "txnRef" = getParam params "vnp_TxnRef")
      (pushNotifs
        (if p.ptype = PType.deposit then advanceDepositReturn st p now else st)
        [⟨p.payer, "payment_received"⟩, ⟨p.recipient, "payment_received"⟩]).payments
      = some p := by rw [hXpay]; exact hf'
  constructor
  · rw [hres]
    exact ⟨_, firstSuch_savePayment hfX (by simp) rfl
      (fun x hx hid => by simpa using hid), rfl, rfl, rfl⟩
  · intro b hd hfb
    have hfb' : firstSuch (fun x : Booking => x.id = p.booking) st.bookings =
        some b := hfb
    have hadv : advanceDepositReturn st p now = saveBooking st { b with
        status := BStatus.depositPaid,
        depositPS := ⟨DepStat.paid, some p.amount, some now, some "vnpay",
          some p.transactionId⟩ } := by
      simp [advanceDepositReturn, hfb]
    refine ⟨{ b with
        status := BStatus.depositPaid,
        depositPS := ⟨DepStat.paid, some p.amount, some now, some "vnpay",
          some p.transactionId⟩ }, ?_, rfl⟩
    show firstSuch (fun x : Booking => x.id = p.booking)
        (vnpayReturn hmac now params st).2.bookings = _
    rw [hres]
    simp only [savePayment_bookings, pushNotifs_bookings, hd, if_true, hadv]
    exact firstSuch_saveBooking hfb'
      (by simpa using firstSuch_eq_some hfb') rfl (fun x hx _ => hx)

/-- The store of the C4 scenario: the already completed deposit payment and
its deposit_paid booking. -/
def c4St : St := ⟨[c4Booking], [c4Payment], [], []⟩

/-- Claim C4 witness: replaying the successful return payload on the
already completed payment still stamps fresh timestamps and re-advances
the booking. -/
theorem claim_C4_witness :
    (∃ q, firstSuch (fun x => x.id = c4Payment.id)
        (vnpayReturn hmacSig 9 c4Params c4St).2.payments = some q ∧
      q.status = PStatus.completed ∧ q.processedAt = some 9 ∧
      q.completedAt = some 9) ∧
    (∃ b', findBooking (vnpayReturn hmacSig 9 c4Params c4St).2.bookings
        c4Payment.booking = some b' ∧ b'.status = BStatus.depositPaid) := by
  have h := claim_C4 hmacSig 9 c4Params c4St c4Payment rfl (by decide) rfl
  exact ⟨h.1, h.2 c4Booking rfl (by decide)⟩

/-- Second delivery of a successful IPN payload against a store whose
matched payment is already completed with the raw fields merged: the
handler acks success and writes back an identical state. -/
theorem ipn_second_noop (hmac : Params → String) (t2 : Int) (params : Params)
    (st stB : St) (p pS : Payment)
    (hv : verifyPaymentResult hmac params = true)
    (hc : getParam params "vnp_ResponseCode" = some "00")
    (hnr : getParam params "txnRef" = none)
    (hf : firstSuch
      (fun x => getParam x.vnpay "txnRef" = getParam params "vnp_TxnRef")
      st.payments = some p)
    (hstb : stB.payments = st.payments)
    (hid : pS.id = p.id)
    (hvp : pS.vnpay = mergeVnpay p.vnpay params)
    (hstat : pS.status = PStatus.completed) :
    vnpayIpn hmac t2 params (savePayment stB pS) =
      (("00", "Success"), savePayment stB pS) ∧
    ∀ q, findPaymentByTxnRef (savePayment stB pS).payments
        (getParam params "vnp_TxnRef") = some q → q.status = PStatus.completed := by
  have hprS : (fun x : Payment =>
      decide (getParam x.vnpay "txnRef" = getParam params "vnp_TxnRef")) pS = true := by
    show decide (getParam pS.vnpay "txnRef" = getParam params "vnp_TxnRef") = true
    rw [hvp, getParam_mergeVnpay_none hnr]
    have h2 := firstSuch_eq_some hf
    exact h2
  have hfind : findPaymentByTxnRef (savePayment stB pS).payments
      (getParam params "vnp_TxnRef") = some pS := by
    show firstSuch (fun x => getParam x.vnpay "txnRef" = getParam params "vnp_TxnRef")
        (stB.payments.map (fun x => if x.id = pS.id then pS else x)) = some pS
    rw [hstb]
    exact firstSuch_replace Payment.id hf hprS hid (fun x hx _ => hx)
  have hmm : mergeVnpay pS.vnpay params = pS.vnpay := by
    rw [hvp]
    exact mergeVnpay_idem _ _
  have hp0 : ({ pS with vnpay := mergeVnpay pS.vnpay params } : Payment) = pS := by
    rw [hmm]
  have hres : vnpayIpn hmac t2 params (savePayment stB pS) =
      (("00", "Success"), savePayment (savePayment stB pS)
        { pS with vnpay := mergeVnpay pS.vnpay params }) := by
    simp [vnpayIpn, parsePaymentResult, hv, hc, hfind, hstat]
  have hidem : savePayment (savePayment stB pS) pS = savePayment stB pS := by
    show ({ savePayment stB pS with payments :=
        (savePayment stB pS).payments.map (fun x => if x.id = pS.id then pS else x) } : St)
      = savePayment stB pS
    have : (savePayment stB pS).payments.map (fun x => if x.id = pS.id then pS else x)
        = (savePayment stB pS).payments := by
      show (stB.payments.map (fun x => if x.id = pS.id then pS else x)).map
          (fun x => if x.id = pS.id then pS else x)
        = stB.payments.map (fun x => if x.id = pS.id then pS else x)
      exact map_replace_idem Payment.id pS stB.payments
    rw [this]
  constructor
  · rw [hres, hp0, hidem]
  · intro q hq
    rw [hfind] at hq
    cases hq
    exact hstat

/-- Claim C5: the IPN handler is idempotent on a repeated identical
successful payload: after the first delivery the matched payment is
completed, and a second delivery at any later time acks RspCode 00 and
leaves the store exactly as the first delivery left it. -/
theorem claim_C5 (hmac : Params → String) (t1 t2 : Int) (params : Params) (st : St)
    (p : Payment)
    (hv : verifyPaymentResult hmac params = true)
    (hc : getParam params "vnp_ResponseCode" = some "00")
    (hnr : getParam params "txnRef" = none)
    (hf : findPaymentByTxnRef st.payments (getParam params "vnp_TxnRef") = some p) :
    vnpayIpn hmac t2 params (vnpayIpn hmac t1 params st).2 =
      (("00", "Success"), (vnpayIpn hmac t1 params st).2) ∧
    ∀ q, findPaymentByTxnRef (vnpayIpn hmac t1 params st).2.payments
        (getParam params "vnp_TxnRef") = some q → q.status = PStatus.completed := by
  have hf' : firstSuch
      (fun x => getParam x.vnpay "txnRef" = getParam params "vnp_TxnRef")
      st.payments = some p := hf
  by_cases hcomp : p.status = PStatus.completed
  · have hres1 : vnpayIpn hmac t1 params st = (("00", "Success"),
        savePayment st { p with vnpay := mergeVnpay p.vnpay params }) := by
      simp [vnpayIpn, parsePaymentResult, hv, hf, hc, hcomp]
    have haux := ipn_second_noop hmac t2 params st st p
      { p with vnpay := mergeVnpay p.vnpay params } hv hc hnr hf' rfl rfl rfl hcomp
    rw [hres1]
    exact haux
  · have hres1 : vnpayIpn hmac t1 params st = (("00", "Success"),
        savePayment
          (if p.ptype = PType.deposit then
            advanceDepositIpn st { p with
              vnpay := mergeVnpay p.vnpay params, status := PStatus.completed,
              processedAt := some t1, completedAt := some t1,
              externalTransactionId := getParam params "vnp_TransactionNo" } t1
          else st)
          { p with
            vnpay := mergeVnpay p.vnpay params, status := PStatus.completed,
            processedAt := some t1, completedAt := some t1,
            externalTransactionId := getParam params "vnp_TransactionNo" }) := by
      simp [vnpayIpn, parsePaymentResult, hv, hf, hc, hcomp]
    have hstb : (if p.ptype = PType.deposit then
        advanceDepositIpn st { p with
          vnpay := mergeVnpay p.vnpay params, status := PStatus.completed,
          processedAt := some t1, completedAt := some t1,
          externalTransactionId := getParam params "vnp_TransactionNo" } t1
        else st).payments = st.payments := by
      by_cases hd : p.ptype = PType.deposit <;> simp [hd]
    have haux := ipn_second_noop hmac t2 params st
      (if p.ptype = PType.deposit then
        advanceDepositIpn st { p with
          vnpay := mergeVnpay p.vnpay params, status := PStatus.completed,
          processedAt := some t1, completedAt := some t1,
          externalTransactionId := getParam params "vnp_TransactionNo" } t1
      else st) p
      { p with
        vnpay := mergeVnpay p.vnpay params, status := PStatus.completed,
        processedAt := some t1, completedAt := some t1,
        externalTransactionId := getParam params "vnp_TransactionNo" }
      hv hc hnr hf' hstb rfl rfl rfl
    rw [hres1]
    exact haux

/-- The pending gateway deposit payment of the C5 witness scenario. -/
def c5Payment : Payment :=
  { id := 11, booking := 1, payer := 2, recipient := 3, ptype := PType.deposit,
    amount := 500, status := PStatus.pending, paymentMethod := "vnpay",
    vnpay := [("txnRef", "T1")], transactionId := "TXN11",
    externalTransactionId := none, description := none, initiatedAt := some 1,
    processedAt := none, completedAt := none, failedAt := none,
    failureReason := none, refund := noRefund }

/-- The confirmed booking owning c5Payment. -/
def c5Booking : Booking :=
  { id := 1, room := 1, tenant := 2, landlord := 3,
    checkInDate := ⟨2025, 9, 1⟩, checkOutDate := ⟨2026, 0, 1⟩,
    duration := 3, numberOfOccupants := 1,
    pricing := ⟨3000000, 3000000, 200000, 12600000⟩,
    status := BStatus.confirmed, depositPS := depositPSDefault,
    monthly := [], cancellation := none }

/-- The store of the C5 scenario. -/
def c5St : St := ⟨[c5Booking], [c5Payment], [], []⟩

/-- Claim C5 witness: the duplicated successful IPN payload applied twice to
the pending deposit payment of a confirmed booking. -/
theorem claim_C5_witness :
    vnpayIpn hmacSig 9 c4Params (vnpayIpn hmacSig 5 c4Params c5St).2 =
      (("00", "Success"), (vnpayIpn hmacSig 5 c4Params c5St).2) ∧
    ∀ q, findPaymentByTxnRef (vnpayIpn hmacSig 5 c4Params c5St).2.payments
        (getParam c4Params "vnp_TxnRef") = some q → q.status = PStatus.completed :=
  claim_C5 hmacSig 5 9 c4Params c5St c5Payment rfl rfl rfl (by decide)


end QLPT
